import Mathlib

/-!
Shallow embedding of the A2l-Parser repository (src/src/a2l_model.py) in Lean 4.

The Python module implements: lexical utilities (comment stripping, shlex
tokenization, numeric coercion), a stack-based block-tree builder, one
extraction routine per recognized block kind, a model aggregate assembled by
`A2LParser.parse_text`, and a serializer `A2LModel.to_a2l`.

Python `int | None` fields are modelled as `Option Int`; Python `float`
values are modelled as rationals (`ℚ`); values that may be either an int or
a float (the "to_float first, else to_int" coercions) are modelled by the
tagged type `PyNum`.  Python exceptions that can escape an extraction
routine (shlex `ValueError`, list-index `IndexError`) are modelled with
`Except PyErr`.
-/

namespace A2L

/-- Decidable equality on `Except`, for evaluating parse results. -/
instance instDecEqExcept {ε α : Type} [DecidableEq ε] [DecidableEq α] :
    DecidableEq (Except ε α)
  | .ok a, .ok b =>
    if h : a = b then .isTrue (by rw [h]) else .isFalse (fun hh => h (Except.ok.inj hh))
  | .ok _, .error _ => .isFalse (fun hh => Except.noConfusion hh)
  | .error _, .ok _ => .isFalse (fun hh => Except.noConfusion hh)
  | .error a, .error b =>
    if h : a = b then .isTrue (by rw [h]) else .isFalse (fun hh => h (Except.error.inj hh))

/-- Exceptions that can propagate out of the Python parsing code:
`valueError` (raised by `shlex.split` on an unbalanced quote or trailing
escape) and `indexError` (raised by `list[0]` on an empty list). -/
inductive PyErr where
  | valueError (msg : String)
  | indexError
deriving DecidableEq, Repr

/-- Python whitespace for `str.strip()` / `str.split()` / regex `\s`
(ASCII range plus the common Unicode members; the A2L inputs are ASCII). -/
def pyIsSpace (c : Char) : Bool :=
  c = ' ' || c = '\t' || c = '\n' || c = '\r' || c = '\x0b' || c = '\x0c' ||
  c = '\x1c' || c = '\x1d' || c = '\x1e' || c = '\x1f' || c = '\x85' ||
  c = '\xa0' || c = ' ' || c = ' '

/-- Python `str.strip()` on a char list. -/
def pyStripChars (l : List Char) : List Char :=
  ((l.dropWhile pyIsSpace).reverse.dropWhile pyIsSpace).reverse

/-- Python `str.strip()`. -/
def pyStrip (s : String) : String :=
  String.mk (pyStripChars s.data)

/-- Python `str.strip('"')`: remove all leading and trailing `"` characters. -/
def pyStripQuoteChars (s : String) : String :=
  String.mk (((s.data.dropWhile (· = '"')).reverse.dropWhile (· = '"')).reverse)

/-- Python `line.rstrip("\n")`: remove trailing newline characters only. -/
def pyRstripNl (s : String) : String :=
  String.mk ((s.data.reverse.dropWhile (· = '\n')).reverse)

/-- Python `str.lower()` (ASCII). -/
def pyLower (s : String) : String :=
  String.mk (s.data.map Char.toLower)

/-- Python `str.startswith(p)`. -/
def strStartsWith (s p : String) : Bool :=
  p.data.isPrefixOf s.data

/-- Python `str.endswith(p)`. -/
def strEndsWith (s p : String) : Bool :=
  p.data.isSuffixOf s.data

/-- Python `str.split()` with no argument: split on whitespace runs,
discarding empty fields (`acc` is the reversed current field). -/
def pySplitWsAux (acc : List Char) : List Char → List String
  | [] => if acc.isEmpty then [] else [String.mk acc.reverse]
  | c :: cs =>
    if pyIsSpace c then
      if acc.isEmpty then pySplitWsAux [] cs
      else String.mk acc.reverse :: pySplitWsAux [] cs
    else pySplitWsAux (c :: acc) cs

/-- Python `str.split()` with no argument. -/
def pySplitWs (s : String) : List String :=
  pySplitWsAux [] s.data

/-- Line-boundary characters for Python `str.splitlines()`. -/
def pyIsLineBreak (c : Char) : Bool :=
  c = '\n' || c = '\r' || c = '\x0b' || c = '\x0c' ||
  c = '\x1c' || c = '\x1d' || c = '\x1e' || c = '\x85' ||
  c = ' ' || c = ' '

/-- Python `str.splitlines()`: split at every line boundary (`\r\n` counts
as a single boundary), with no trailing empty line. -/
def pySplitlinesChars (acc : List Char) : List Char → List String
  | [] => if acc.isEmpty then [] else [String.mk acc.reverse]
  | '\r' :: '\n' :: cs => String.mk acc.reverse :: pySplitlinesChars [] cs
  | c :: cs =>
    if pyIsLineBreak c then String.mk acc.reverse :: pySplitlinesChars [] cs
    else pySplitlinesChars (c :: acc) cs

/-- Python `str.splitlines()`. -/
def pySplitlines (s : String) : List String :=
  pySplitlinesChars [] s.data

mutual

/-- Source `strip_block_comments`: `re.sub(r"/\*.*?\*/", "", text, flags=re.S)`.
Every `/* ... */` span (non-greedy, first close wins, spanning line
boundaries) is deleted; an unterminated `/*` does not match the regex and
its text is kept verbatim (`sbcComment` buffers the candidate span for that
case). -/
def stripBlockCommentsChars : List Char → List Char
  | [] => []
  | '/' :: '*' :: cs => sbcComment ['*', '/'] cs
  | c :: cs => c :: stripBlockCommentsChars cs

/-- Inside a candidate comment span: `buf` is the reversed text consumed so
far (emitted verbatim if no `*/` ever closes the span). -/
def sbcComment (buf : List Char) : List Char → List Char
  | [] => buf.reverse
  | '*' :: '/' :: cs => stripBlockCommentsChars cs
  | c :: cs => sbcComment (c :: buf) cs

end

/-- Source `strip_block_comments`. -/
def stripBlockComments (text : String) : String :=
  String.mk (stripBlockCommentsChars text.data)

/-- Value of a decimal digit character. -/
def decDigitVal (c : Char) : Option Nat :=
  if '0' ≤ c ∧ c ≤ '9' then some (c.toNat - '0'.toNat) else none

/-- Value of a hexadecimal digit character. -/
def hexDigitVal (c : Char) : Option Nat :=
  if '0' ≤ c ∧ c ≤ '9' then some (c.toNat - '0'.toNat)
  else if 'a' ≤ c ∧ c ≤ 'f' then some (c.toNat - 'a'.toNat + 10)
  else if 'A' ≤ c ∧ c ≤ 'F' then some (c.toNat - 'A'.toNat + 10)
  else none

/-- Read a nonempty run of digits in the given base; `none` when the list is
empty or contains a non-digit. -/
def natOfDigits (digitVal : Char → Option Nat) (base : Nat) : List Char → Option Nat
  | [] => none
  | [c] => digitVal c
  | c :: cs => do
    let d ← digitVal c
    let rest ← natOfDigits digitVal base cs
    pure (d * base ^ cs.length + rest)

/-- Optional `+`/`-` sign: returns the sign as an `Int` and the remainder. -/
def splitSign : List Char → Int × List Char
  | '+' :: cs => (1, cs)
  | '-' :: cs => (-1, cs)
  | cs => (1, cs)

/-- Python `int(token)`: surrounding whitespace, optional sign, nonempty
decimal digits.  (Numeric-literal underscores are not modelled.) -/
def pyDecInt (token : String) : Option Int :=
  let cs := pyStripChars token.data
  let (sign, ds) := splitSign cs
  (natOfDigits decDigitVal 10 ds).map (fun n => sign * n)

/-- Python `int(token, 16)` as reached from `to_int`: the token is already
known to start with `0x`/`0X`, so parse that prefix plus nonempty hex
digits.  (Numeric-literal underscores are not modelled.) -/
def pyHexInt (token : String) : Option Int :=
  let cs := pyStripChars token.data
  match cs with
  | '0' :: x :: ds =>
    if x = 'x' ∨ x = 'X' then (natOfDigits hexDigitVal 16 ds).map (fun n => (n : Int))
    else none
  | _ => none

/-- Source `to_int`: hexadecimal when the lowercased token starts with `0x`,
decimal otherwise; `None` when the conversion raises. -/
def pyToInt (token : String) : Option Int :=
  if strStartsWith (pyLower token) "0x" then pyHexInt token else pyDecInt token

/-- Source `to_float` (`float(token)`), modelled exactly over rationals and
built only from integer arithmetic and `mkRat` (so that it reduces in the
kernel): optional sign, digits with an optional fraction and an optional
exponent.  `inf`/`nan` and numeric-literal underscores are not modelled;
every value the repository's inputs exercise is an exact decimal. -/
def pyToFloat (token : String) : Option ℚ :=
  let cs := pyStripChars token.data
  let (sign, cs) := splitSign cs
  let intDigits := cs.takeWhile (fun c => (decDigitVal c).isSome)
  let rest := cs.dropWhile (fun c => (decDigitVal c).isSome)
  let (fracDigits, rest) :=
    match rest with
    | '.' :: r => (r.takeWhile (fun c => (decDigitVal c).isSome),
                   r.dropWhile (fun c => (decDigitVal c).isSome))
    | r => ([], r)
  if intDigits.isEmpty ∧ fracDigits.isEmpty then none
  else
    let intVal := (natOfDigits decDigitVal 10 intDigits).getD 0
    let fracVal := (natOfDigits decDigitVal 10 fracDigits).getD 0
    let mantNum : Int := sign * (intVal * 10 ^ fracDigits.length + fracVal)
    let mantDen : Nat := 10 ^ fracDigits.length
    match rest with
    | [] => some (mkRat mantNum mantDen)
    | e :: r =>
      if e = 'e' ∨ e = 'E' then
        let (esign, ds) := splitSign r
        match natOfDigits decDigitVal 10 ds with
        | some n =>
          if esign = 1 then some (mkRat (mantNum * 10 ^ n) mantDen)
          else some (mkRat mantNum (mantDen * 10 ^ n))
        | none => none
      else none

/-- The tagged numeric type produced by the source's
`to_float(t) if to_float(t) is not None else to_int(t)` coercions: a Python
float (modelled as `ℚ`) or a Python int. -/
inductive PyNum where
  | floatVal (q : ℚ)
  | intVal (n : Int)
deriving DecidableEq, Repr

/-- The coercion `to_float(t) if to_float(t) is not None else to_int(t)`. -/
def coerceNum (t : String) : Option PyNum :=
  match pyToFloat t with
  | some q => some (.floatVal q)
  | none =>
    match pyToInt t with
    | some n => some (.intVal n)
    | none => none

/-- Python `str(float)` for the values this model renders: every float the
repository writes back is an exact small decimal, rendered `<int>.0` when
integral.  Non-integral values (never exercised by the modelled claims) are
rendered as a plain fraction. -/
def pyFloatRepr (q : ℚ) : String :=
  if q.den = 1 then toString q.num ++ ".0"
  else toString q.num ++ "/" ++ toString q.den

/-- Python `str` of a `PyNum` (an f-string `{value}` interpolation). -/
def pyNumRepr : PyNum → String
  | .floatVal q => pyFloatRepr q
  | .intVal n => toString n

/-- Python `hex(n)`: lowercase hexadecimal with a `0x` prefix, `-0x...` for
negative values. -/
def pyHex (n : Int) : String :=
  let mag := String.mk (Nat.toDigits 16 n.natAbs)
  if n < 0 then "-0x" ++ mag else "0x" ++ mag

/-- Characters `shlex` treats as token separators (`shlex.whitespace`). -/
def shlexWs (c : Char) : Bool :=
  c = ' ' || c = '\t' || c = '\r' || c = '\n'

mutual

/-- State machine for `shlex.split(line, posix=True)` (with
`whitespace_split=True`, no comment characters): `cur` is the reversed
current token, `quoted` records whether the token saw a quote (a quoted
empty token is kept), `acc` is the reversed token list. -/
def shlexNormal (cs : List Char) (cur : List Char) (quoted : Bool)
    (acc : List String) : Except PyErr (List String) :=
  match cs with
  | [] =>
    if cur.isEmpty ∧ ¬ quoted then .ok acc.reverse
    else .ok (acc.reverse ++ [String.mk cur.reverse])
  | c :: rest =>
    if shlexWs c then
      if cur.isEmpty ∧ ¬ quoted then shlexNormal rest [] false acc
      else shlexNormal rest [] false (String.mk cur.reverse :: acc)
    else if c = '\'' then shlexSingle rest cur acc
    else if c = '"' then shlexDouble rest cur acc
    else if c = '\\' then
      match rest with
      | [] => .error (.valueError "No escaped character")
      | d :: rest2 => shlexNormal rest2 (d :: cur) quoted acc
    else shlexNormal rest (c :: cur) quoted acc

/-- Inside a single-quoted section: everything is literal up to `'`. -/
def shlexSingle (cs : List Char) (cur : List Char) (acc : List String) :
    Except PyErr (List String) :=
  match cs with
  | [] => .error (.valueError "No closing quotation")
  | c :: rest =>
    if c = '\'' then shlexNormal rest cur true acc
    else shlexSingle rest (c :: cur) acc

/-- Inside a double-quoted section: `\` escapes only `\` and `"`, any other
escaped character keeps its backslash. -/
def shlexDouble (cs : List Char) (cur : List Char) (acc : List String) :
    Except PyErr (List String) :=
  match cs with
  | [] => .error (.valueError "No closing quotation")
  | c :: rest =>
    if c = '"' then shlexNormal rest cur true acc
    else if c = '\\' then
      match rest with
      | [] => .error (.valueError "No closing quotation")
      | d :: rest2 =>
        if d = '\\' ∨ d = '"' then shlexDouble rest2 (d :: cur) acc
        else shlexDouble rest2 (d :: '\\' :: cur) acc
    else shlexDouble rest (c :: cur) acc

end

/-- Source `tokenize_line`: `shlex.split(line, posix=True)`. -/
def tokenizeLine (line : String) : Except PyErr (List String) :=
  shlexNormal line.data [] false []

/-- Source `unquote`: strip one layer of surrounding matching quotes when
the string has length at least 2. -/
def pyUnquote (s : String) : String :=
  match s.data with
  | [] => s
  | [_] => s
  | c :: d :: cs =>
    let last := (d :: cs).getLast (by simp)
    if (c = '"' ∧ last = '"') ∨ (c = '\'' ∧ last = '\'') then
      String.mk ((d :: cs).dropLast)
    else s

/-- Python `" ".join(tokens)`. -/
def joinSpace (ts : List String) : String :=
  String.intercalate " " ts

/-- Python `str.upper()` (ASCII). -/
def pyUpper (s : String) : String :=
  String.mk (s.data.map Char.toUpper)

/-- Source `A2LBlock`: a node of the block tree (name, opening-line
arguments, raw content lines, child blocks). -/
structure A2LBlock where
  name : String
  args : List String
  lines : List String
  children : List A2LBlock

/-- Source `A2LBlock.get_children`: children whose name matches
case-insensitively. -/
def A2LBlock.getChildren (b : A2LBlock) (name : String) : List A2LBlock :=
  b.children.filter (fun c => pyUpper c.name = pyUpper name)

/-- Source `A2LBlock.get_first_child`. -/
def A2LBlock.getFirstChild (b : A2LBlock) (name : String) : Option A2LBlock :=
  (b.getChildren name).head?

/-- An open block on the builder stack; completed children accumulate in
`children` (the Python code appends the child to its parent at `/begin`
time and mutates it in place, which the functional model realizes by
attaching the finished child at `/end` time). -/
structure BuildFrame where
  name : String
  args : List String
  lines : List String
  children : List A2LBlock

/-- Close a frame into a block. -/
def BuildFrame.toBlock (f : BuildFrame) : A2LBlock :=
  ⟨f.name, f.args, f.lines, f.children⟩

/-- The match `re.match(r"/begin\s+(\S+)\s*(.*)$", s, flags=re.I)` applied to
a line already known to start (case-insensitively) with `/begin`: returns
the block name and the argument text after it (`group(2)`, i.e. the
remainder after the name with leading whitespace removed), or `none` when
the line has nothing after `/begin`. -/
def beginMatch (s : String) : Option (String × String) :=
  let cs := s.data.drop 6
  match cs with
  | [] => none
  | c :: _ =>
    if pyIsSpace c then
      let afterWs := cs.dropWhile pyIsSpace
      let nameChars := afterWs.takeWhile (fun d => ¬ pyIsSpace d)
      if nameChars.isEmpty then none
      else
        let rest := (afterWs.dropWhile (fun d => ¬ pyIsSpace d)).dropWhile pyIsSpace
        some (String.mk nameChars, String.mk rest)
    else none

/-- The argument list of an opening line: `shlex.split(args_str)` with a
fallback to `args_str.split()` when shlex raises, and `[]` for an empty
argument text (source `BlockBuilder.feed_line`). -/
def beginArgs (argsStr : String) : List String :=
  if argsStr.isEmpty then []
  else
    match tokenizeLine argsStr with
    | .ok a => a
    | .error _ => pySplitWs argsStr

/-- Source `BlockBuilder.feed_line`, one line against the open-block stack
(head = top of stack, the synthetic root at the bottom). -/
def feedLine (st : List BuildFrame) (line : String) : List BuildFrame :=
  let s := pyStrip line
  if s.isEmpty then st
  else if strStartsWith (pyLower s) "/begin" then
    match beginMatch s with
    | none =>
      match st with
      | top :: rest => { top with lines := top.lines ++ [pyRstripNl line] } :: rest
      | [] => []
    | some (name, argsStr0) =>
      let args := beginArgs (pyStrip argsStr0)
      ⟨name, args, [], []⟩ :: st
  else if strStartsWith (pyLower s) "/end" then
    match st with
    | top :: parent :: rest =>
      { parent with children := parent.children ++ [top.toBlock] } :: rest
    | other => other
  else
    match st with
    | top :: rest => { top with lines := top.lines ++ [pyRstripNl line] } :: rest
    | [] => []

/-- Collapse the remaining stack: every still-open frame is already attached
to its parent in the Python tree (appended at `/begin` time), so closing
them all reproduces `BlockBuilder.get_root()`. -/
def finalizeStack (f : BuildFrame) : List BuildFrame → A2LBlock
  | [] => f.toBlock
  | parent :: rest =>
    finalizeStack { parent with children := parent.children ++ [f.toBlock] } rest

/-- The root frame (`A2LBlock(name="ROOT", args=[])`). -/
def rootFrame : BuildFrame := ⟨"ROOT", [], [], []⟩

/-- Feed every line and return the root block. -/
def buildRoot (ls : List String) : A2LBlock :=
  match ls.foldl feedLine [rootFrame] with
  | [] => rootFrame.toBlock
  | f :: rest => finalizeStack f rest

/-- Source dataclass `ProtocolLayer`. -/
structure ProtocolLayer where
  version : Option Int
  timing_values : List Int
  max_cto : Option Int
  max_dto : Option Int
  byte_order : Option String
  address_granularity : Option String
  optional_cmds : List String
  communication_mode : Option String
  master_max_bs : Option Int
  master_min_st : Option Int
  raw : List String
deriving DecidableEq, Repr

/-- The dataclass defaults of `ProtocolLayer`. -/
def ProtocolLayer.init (raw : List String) : ProtocolLayer :=
  ⟨none, [], none, none, none, none, [], none, none, none, raw⟩

/-- Source dataclass `DaqEvent`. -/
structure DaqEvent where
  name : String
  short_name : Option String
  event_channel_number : Option Int
  type : Option String
  max_daq_list : Option Int
  cycle : Option Int
  time_unit : Option Int
  priority : Option Int
  raw : List String
deriving DecidableEq, Repr

/-- Source dataclass `DaqConfig`. -/
structure DaqConfig where
  mode : Option String
  max_daq : Option Int
  max_event_channel : Option Int
  min_daq : Option Int
  identification_field_type : Option String
  odt_entry_granularity_daq : Option String
  max_odt_entry_size_daq : Option Int
  overload_indication : Option String
  stim_granularity : Option String
  max_odt_entry_size_stim : Option Int
  bit_stim_supported : Bool
  events : List DaqEvent
  raw : List String
deriving DecidableEq, Repr

/-- The dataclass defaults of `DaqConfig`. -/
def DaqConfig.init (raw : List String) : DaqConfig :=
  ⟨none, none, none, none, none, none, none, none, none, none, false, [], raw⟩

/-- Source dataclass `XcpOnCanFdConfig`. -/
structure XcpOnCanFdConfig where
  max_dlc : Option Int
  data_transfer_baudrate : Option Int
  sample_point : Option Int
  btl_cycles : Option Int
  sjw : Option Int
  sync_edge : Option String
  max_dlc_required : Bool
  secondary_sample_point : Option Int
  tdc : Option String
  raw : List String
deriving DecidableEq, Repr

/-- The dataclass defaults of `XcpOnCanFdConfig`. -/
def XcpOnCanFdConfig.init (raw : List String) : XcpOnCanFdConfig :=
  ⟨none, none, none, none, none, none, false, none, none, raw⟩

/-- Source dataclass `XcpOnCanConfig`. -/
structure XcpOnCanConfig where
  version : Option Int
  can_id_broadcast : Option Int
  can_id_master : Option Int
  can_id_slave : Option Int
  can_id_get_daq_clock_multicast : Option Int
  baudrate : Option Int
  sample_point : Option Int
  sample_rate : Option String
  btl_cycles : Option Int
  sjw : Option Int
  sync_edge : Option String
  max_dlc_required : Bool
  max_bus_load : Option Int
  can_fd : Option XcpOnCanFdConfig
  raw : List String
deriving DecidableEq, Repr

/-- The dataclass defaults of `XcpOnCanConfig`. -/
def XcpOnCanConfig.init (raw : List String) : XcpOnCanConfig :=
  ⟨none, none, none, none, none, none, none, none, none, none, none, false, none, none, raw⟩

/-- Source dataclass `PageInfo`. -/
structure PageInfo where
  page_number : Option Int
  ecu_access : Option String
  xcp_read_access : Option String
  xcp_write_access : Option String
deriving DecidableEq, Repr

/-- Source dataclass `SegmentInfo`. -/
structure SegmentInfo where
  segment_number : Option Int
  num_pages : Option Int
  address_extension : Option Int
  compression_method : Option Int
  encryption_method : Option Int
  checksum_type : Option String
  pages : List PageInfo
  raw : List String
deriving DecidableEq, Repr

/-- Source dataclass `MemorySegment`. -/
structure MemorySegment where
  name : String
  long_identifier : Option String
  class_type : Option String
  memory_type : Option String
  address : Option Int
  size : Option Int
  attributes : List String
  segment_info : Option SegmentInfo
  raw : List String
deriving DecidableEq, Repr

/-- Source dataclass `AxisPts`. -/
structure AxisPts where
  name : String
  description : String
  address : Option Int
  input_quantity : Option String
  record_layout : Option String
  deposit : Option Int
  compu_method : Option String
  max_axis_points : Option Int
  lower_limit : Option PyNum
  upper_limit : Option PyNum
  byte_order : Option String
  format_str : Option String
  symbol_link : Option (String × Int)
  raw : List String
deriving DecidableEq, Repr

/-- Source dataclass `Measurement`. -/
structure Measurement where
  name : String
  description : String
  datatype : String
  compu_method : String
  params : List String
  ecu_address : Option Int
  address : Option Int
  lower_limit : Option PyNum
  upper_limit : Option PyNum
  symbol_link : Option (String × Int)
  raw : List String
deriving DecidableEq, Repr

/-- Source dataclass `Characteristic`. -/
structure Characteristic where
  name : String
  description : String
  char_type : String
  address : Option Int
  record_layout : Option String
  max_diff : Option PyNum
  compu_method : Option String
  lower_limit : Option PyNum
  upper_limit : Option PyNum
  symbol_link : Option (String × Int)
  raw : List String
deriving DecidableEq, Repr

/-- Source dataclass `CompuMethod`. -/
structure CompuMethod where
  name : String
  description : String
  method_type : String
  format_str : Option String
  unit : Option String
  coeffs : List ℚ
  raw : List String
deriving DecidableEq, Repr

/-- Source dataclass `CompuVTab`. -/
structure CompuVTab where
  name : String
  description : String
  tab_type : String
  entries : List (Int × String)
  raw : List String
deriving DecidableEq, Repr

/-- Source dataclass `RecordLayout`. -/
structure RecordLayout where
  name : String
  entries : List String
  raw : List String
deriving DecidableEq, Repr

/-- Source dataclass `Group`. -/
structure Group where
  name : String
  description : String
  ref_measurements : List String
  raw : List String
deriving DecidableEq, Repr

/-- Source dataclass `Function`. -/
structure Func where
  name : String
  description : String
  loc_measurements : List String
  raw : List String
deriving DecidableEq, Repr

/-- Source dataclass `A2LModel` (the aggregate).  `raw_blocks` keeps the
original tree, as in the source. -/
structure A2LModel where
  project_name : Option String
  module_name : Option String
  protocol_layer : Option ProtocolLayer
  daq : Option DaqConfig
  daq_events : List DaqEvent
  xcp_on_can : Option XcpOnCanConfig
  memory_segments : List MemorySegment
  axis_pts : List AxisPts
  measurements : List Measurement
  characteristics : List Characteristic
  compu_methods : List CompuMethod
  compu_vtabs : List CompuVTab
  record_layouts : List RecordLayout
  groups : List Group
  functions : List Func
  raw_blocks : List A2LBlock

/-- The dataclass defaults of `A2LModel`. -/
def A2LModel.init (raw_blocks : List A2LBlock) : A2LModel :=
  ⟨none, none, none, none, [], none, [], [], [], [], [], [], [], [], [], raw_blocks⟩

/-- Python `ln.strip()` truthiness, used to pre-filter content lines. -/
def lineNonblank (ln : String) : Bool :=
  ¬ (pyStrip ln).isEmpty

/-- Python `lst[0]`: the head, or an `IndexError`. -/
def pyHead0 (l : List String) : Except PyErr String :=
  match l with
  | [] => .error .indexError
  | x :: _ => .ok x

/-- Python `x or 0` on an `int | None` value. -/
def pyOrZero : Option Int → Int
  | some v => v
  | none => 0

/-- The shared `next_tokens` / `next_token_line` helper: tokenize lines in
order, returning the first nonempty token list together with the lines not
yet consumed (`[]` when the lines are exhausted). -/
def nextTokens : List String → Except PyErr (List String × List String)
  | [] => .ok ([], [])
  | l :: rest =>
    match tokenizeLine l with
    | .error e => .error e
    | .ok t => if t.isEmpty then nextTokens rest else .ok (t, rest)

theorem nextTokens_consumes (rem rem' : List String) (t : String) (ts : List String)
    (h : nextTokens rem = .ok (t :: ts, rem')) : rem'.length < rem.length := by
  induction rem generalizing rem' with
  | nil => simp [nextTokens] at h
  | cons l rest ih =>
    rw [nextTokens] at h
    match htok : tokenizeLine l with
    | .error e => rw [htok] at h; simp at h
    | .ok tk =>
      rw [htok] at h
      by_cases hemp : tk.isEmpty
      · simp only [hemp, if_true] at h
        exact Nat.lt_succ_of_lt (ih _ h)
      · simp only [hemp, if_false, Except.ok.injEq, Prod.mk.injEq] at h
        obtain ⟨-, rfl⟩ := h
        simp

/-- Name resolution shared by `parse_axis_pts`, `parse_measurement` and
`parse_characteristic`: the name comes from the `/begin` arguments when
present, otherwise from the first token of the first content line (which is
then consumed). -/
def resolveName (args : List String) (lines : List String) :
    Except PyErr (String × List String) :=
  match args with
  | a :: _ => .ok (a, lines)
  | [] =>
    match lines with
    | [] => .ok ("", [])
    | l :: rest =>
      match tokenizeLine l with
      | .error e => .error e
      | .ok t => .ok ((match t with | x :: _ => x | [] => ""), rest)

/-- Break tokens of the leading integer loop in `parse_protocol_layer`. -/
def plIsBreakTok (t : String) : Bool :=
  strStartsWith t "BYTE_ORDER" || strStartsWith t "ADDRESS_GRANULARITY" ||
  t = "OPTIONAL_CMD" || t = "COMMUNICATION_MODE_SUPPORTED"

/-- The timing-value loop of `parse_protocol_layer`: collect integers until
a recognized keyword or the first non-integer token. -/
def plTimingLoop : List String → List Int
  | [] => []
  | t :: ts =>
    if plIsBreakTok t then []
    else
      match pyToInt t with
      | some v => v :: plTimingLoop ts
      | none => []

/-- Anchor test of the `before_enum` loop in `parse_protocol_layer`. -/
def plIsEnumTok (t : String) : Bool :=
  strStartsWith t "BYTE_ORDER" || strStartsWith t "ADDRESS_GRANULARITY"

/-- The `before_enum` loop of `parse_protocol_layer`: integers coerced from
the tokens strictly preceding the first byte-order / address-granularity
token (non-integer tokens are skipped, not break points). -/
def plBeforeEnum : List String → List Int
  | [] => []
  | t :: ts =>
    if plIsEnumTok t then []
    else
      match pyToInt t with
      | some v => v :: plBeforeEnum ts
      | none => plBeforeEnum ts

/-- One step of the keyword scan (`for i, tok in enumerate(flat)`) of
`parse_protocol_layer`. -/
def plScanStep (flat : List String) (pl : ProtocolLayer) (p : Nat × String) :
    ProtocolLayer :=
  let i := p.1
  let tok := p.2
  if strStartsWith tok "BYTE_ORDER" then { pl with byte_order := some tok }
  else if strStartsWith tok "ADDRESS_GRANULARITY" then
    { pl with address_granularity := some tok }
  else if tok = "OPTIONAL_CMD" then
    match flat[i + 1]? with
    | some nxt => { pl with optional_cmds := pl.optional_cmds ++ [nxt] }
    | none => pl
  else if tok = "COMMUNICATION_MODE_SUPPORTED" then
    match flat[i + 1]? with
    | some nxt => { pl with communication_mode := some nxt }
    | none => pl
  else if tok = "MASTER" then
    match flat[i + 1]?, flat[i + 2]? with
    | some a, some b => { pl with master_max_bs := pyToInt a, master_min_st := pyToInt b }
    | _, _ => pl
  else pl

/-- The pure body of `parse_protocol_layer`, applied to the flattened token
stream of the block's lines. -/
def plOfFlat (raw : List String) (flat : List String) : ProtocolLayer :=
  let pl0 := ProtocolLayer.init raw
  let verRest :=
    match flat with
    | [] => (pl0, ([] : List String))
    | t :: ts =>
      match pyToInt t with
      | some v => ({ pl0 with version := some v }, ts)
      | none => (pl0, t :: ts)
  let pl2 := { verRest.1 with timing_values := plTimingLoop verRest.2 }
  let pl3 := (flat.enum).foldl (plScanStep flat) pl2
  let before := plBeforeEnum flat
  if 3 ≤ before.length then
    { pl3 with max_cto := before[before.length - 3]?, max_dto := before[before.length - 2]? }
  else pl3

/-- Source `parse_protocol_layer`. -/
def parseProtocolLayer (block : A2LBlock) : Except PyErr ProtocolLayer := do
  let toks ← block.lines.mapM tokenizeLine
  pure (plOfFlat block.lines toks.flatten)

/-- The acquisition-event type tags. -/
def daqEventTypeTag (x : String) : Bool :=
  x = "DAQ" || x = "STIM" || x = "DAQ_STIM"

/-- Source `parse_daq_event`. -/
def parseDaqEvent (block : A2LBlock) : Except PyErr DaqEvent := do
  let lines := block.lines.filter lineNonblank
  let toks ← lines.mapM tokenizeLine
  let flat := toks.flatten
  let quoted := (flat.filter (fun x => strStartsWith x "\"" && strEndsWith x "\"")).map pyUnquote
  let name := match quoted with | q :: _ => q | [] => ""
  let short := quoted[1]?
  let nums := flat.filterMap pyToInt
  let evtNum := nums.head?
  let typeTok := flat.find? daqEventTypeTag
  let ints :=
    match typeTok with
    | none => (none, none, none, none)
    | some tt =>
      let ti := flat.indexOf tt
      let seq := (flat.drop (ti + 1)).filterMap pyToInt
      match seq with
      | a :: b :: c :: d :: _ =>
        (some a, some b, some c, some d)
      | _ => (none, none, none, none)
  pure ⟨name, short, evtNum, typeTok, ints.1, ints.2.1, ints.2.2.1, ints.2.2.2, block.lines⟩

/-- First keyword scan of `parse_daq`. -/
def daqScan1 (dq : DaqConfig) (tok : String) : DaqConfig :=
  if strStartsWith tok "IDENTIFICATION_FIELD_TYPE_" then
    { dq with identification_field_type := some tok }
  else if strStartsWith tok "GRANULARITY_ODT_ENTRY_SIZE_DAQ_" ∨
      strStartsWith tok "GRANULARITY_ODT_ENTRY_SIZE_DAQ" then
    { dq with odt_entry_granularity_daq := some tok }
  else if tok = "OVERLOAD_INDICATION_EVENT" then
    { dq with overload_indication := some "EVENT" }
  else if strStartsWith tok "GRANULARITY_ODT_ENTRY_SIZE_STIM_" then
    { dq with stim_granularity := some tok }
  else if tok = "BIT_STIM_SUPPORTED" then { dq with bit_stim_supported := true }
  else dq

/-- Second keyword scan of `parse_daq` (two independent `if`s per token). -/
def daqScan2 (flat : List String) (dq : DaqConfig) (p : Nat × String) : DaqConfig :=
  let i := p.1
  let tok := p.2
  let dq1 :=
    if strStartsWith tok "GRANULARITY_ODT_ENTRY_SIZE_DAQ" then
      match flat[i + 1]? with
      | some nxt => { dq with max_odt_entry_size_daq := pyToInt nxt }
      | none => dq
    else dq
  if strStartsWith tok "GRANULARITY_ODT_ENTRY_SIZE_STIM" then
    match flat[i + 1]? with
    | some nxt => { dq1 with max_odt_entry_size_stim := pyToInt nxt }
    | none => dq1
  else dq1

/-- Source `parse_daq`. -/
def parseDaq (block : A2LBlock) : Except PyErr DaqConfig := do
  let toks0 ← block.lines.mapM tokenizeLine
  let flat := toks0.flatten
  let dq0 := DaqConfig.init block.lines
  let dq1 :=
    match flat with
    | [] => dq0
    | h :: _ => { dq0 with mode := if h = "STATIC" ∨ h = "DYNAMIC" then some h else none }
  let nums := ((flat.drop 1).take 3).map pyToInt
  let dq2 :=
    match nums with
    | a :: b :: c :: _ => { dq1 with max_daq := a, max_event_channel := b, min_daq := c }
    | _ => dq1
  let dq3 := flat.foldl daqScan1 dq2
  let dq4 := (flat.enum).foldl (daqScan2 flat) dq3
  let evs ← (block.getChildren "EVENT").mapM parseDaqEvent
  pure { dq4 with events := evs }

/-- Key characters of the `^([A-Z0-9_]+)\s+(\S+)$` key/value pattern. -/
def kvKeyChar (c : Char) : Bool :=
  ('A' ≤ c ∧ c ≤ 'Z') || ('0' ≤ c ∧ c ≤ '9') || c = '_'

/-- Full match of `^([A-Z0-9_]+)\s+(\S+)$` against a (stripped) line. -/
def kvMatch (s : String) : Option (String × String) :=
  let cs := s.data
  let key := cs.takeWhile kvKeyChar
  let rest := cs.dropWhile kvKeyChar
  if key.isEmpty then none
  else
    let ws := rest.takeWhile pyIsSpace
    let value := rest.dropWhile pyIsSpace
    if ws.isEmpty ∨ value.isEmpty ∨ value.any pyIsSpace then none
    else some (String.mk key, String.mk value)

/-- One key/value line of `parse_can_fd`. -/
def canFdStep (fd : XcpOnCanFdConfig) (ln : String) : XcpOnCanFdConfig :=
  match kvMatch (pyStrip ln) with
  | none => fd
  | some kv =>
    let ku := pyUpper kv.1
    let value := kv.2
    if ku = "MAX_DLC" then { fd with max_dlc := pyToInt value }
    else if ku = "CAN_FD_DATA_TRANSFER_BAUDRATE" then
      { fd with data_transfer_baudrate := pyToInt value }
    else if ku = "SAMPLE_POINT" then { fd with sample_point := pyToInt value }
    else if ku = "BTL_CYCLES" then { fd with btl_cycles := pyToInt value }
    else if ku = "SJW" then { fd with sjw := pyToInt value }
    else if ku = "SYNC_EDGE" then { fd with sync_edge := some value }
    else if ku = "MAX_DLC_REQUIRED" then { fd with max_dlc_required := true }
    else if ku = "SECONDARY_SAMPLE_POINT" then
      { fd with secondary_sample_point := pyToInt value }
    else if ku = "TRANSCEIVER_DELAY_COMPENSATION" then { fd with tdc := some value }
    else fd

/-- Source `parse_can_fd` (pure: only regex matching). -/
def parseCanFd (block : A2LBlock) : XcpOnCanFdConfig :=
  block.lines.foldl canFdStep (XcpOnCanFdConfig.init block.lines)

/-- One key/value line of `parse_xcp_on_can`. -/
def xcpKvStep (xcp : XcpOnCanConfig) (ln : String) : XcpOnCanConfig :=
  match kvMatch (pyStrip ln) with
  | none => xcp
  | some kv =>
    let ku := pyUpper kv.1
    let value := kv.2
    if ku = "CAN_ID_BROADCAST" then { xcp with can_id_broadcast := pyToInt value }
    else if ku = "CAN_ID_MASTER" then { xcp with can_id_master := pyToInt value }
    else if ku = "CAN_ID_SLAVE" then { xcp with can_id_slave := pyToInt value }
    else if ku = "CAN_ID_GET_DAQ_CLOCK_MULTICAST" then
      { xcp with can_id_get_daq_clock_multicast := pyToInt value }
    else if ku = "BAUDRATE" then { xcp with baudrate := pyToInt value }
    else if ku = "SAMPLE_POINT" then { xcp with sample_point := pyToInt value }
    else if ku = "SAMPLE_RATE" then { xcp with sample_rate := some value }
    else if ku = "BTL_CYCLES" then { xcp with btl_cycles := pyToInt value }
    else if ku = "SJW" then { xcp with sjw := pyToInt value }
    else if ku = "SYNC_EDGE" then { xcp with sync_edge := some value }
    else if ku = "MAX_DLC_REQUIRED" then { xcp with max_dlc_required := true }
    else if ku = "MAX_BUS_LOAD" then { xcp with max_bus_load := pyToInt value }
    else xcp

/-- Source `parse_xcp_on_can`. -/
def parseXcpOnCan (block : A2LBlock) : Except PyErr XcpOnCanConfig := do
  let toks ← (block.lines.filter lineNonblank).mapM tokenizeLine
  let flat := toks.flatten
  let x0 := XcpOnCanConfig.init block.lines
  let x1 :=
    match flat with
    | h :: _ =>
      match pyToInt h with
      | some v => { x0 with version := some v }
      | none => x0
    | [] => x0
  let x2 := block.lines.foldl xcpKvStep x1
  pure (match block.getFirstChild "CAN_FD" with
    | some fd => { x2 with can_fd := some (parseCanFd fd) }
    | none => x2)

/-- The `for ln in cs.lines: t = tokenize_line(ln); if t: ... break` scan of
`parse_segment_info`'s CHECKSUM child: first token of the first line with a
nonempty token list. -/
def firstTokenOfLines : List String → Except PyErr (Option String)
  | [] => .ok none
  | ln :: rest =>
    match tokenizeLine ln with
    | .error e => .error e
    | .ok t =>
      match t with
      | x :: _ => .ok (some x)
      | [] => firstTokenOfLines rest

/-- Source `parse_segment_info`, PAGE child. -/
def parsePage (pg : A2LBlock) : Except PyErr PageInfo := do
  let toks ← (pg.lines.filter lineNonblank).mapM tokenizeLine
  let flatp := toks.flatten
  let pn := match flatp with | x :: _ => pyToInt x | [] => none
  pure ⟨pn, flatp[1]?, flatp[2]?, flatp[3]?⟩

/-- Source `parse_segment_info`. -/
def parseSegmentInfo (segBlock : A2LBlock) : Except PyErr SegmentInfo := do
  let toks ← (segBlock.lines.filter lineNonblank).mapM tokenizeLine
  let flat := toks.flatten
  let nums := flat.filterMap pyToInt
  let si0 : SegmentInfo := ⟨none, none, none, none, none, none, [], segBlock.lines⟩
  let si1 :=
    match nums with
    | a :: b :: c :: d :: e :: _ =>
      { si0 with segment_number := some a, num_pages := some b, address_extension := some c,
                 compression_method := some d, encryption_method := some e }
    | _ => si0
  let si2 ←
    match segBlock.getFirstChild "CHECKSUM" with
    | some cs => do
      let ct ← firstTokenOfLines cs.lines
      pure (match ct with
        | some c => { si1 with checksum_type := some c }
        | none => si1)
    | none => pure si1
  let pages ← (segBlock.getChildren "PAGE").mapM parsePage
  pure { si2 with pages := pages }

/-- Python `str.isalpha()` (nonempty, all alphabetic). -/
def pyIsAlphaStr (s : String) : Bool :=
  ¬ s.isEmpty && s.data.all Char.isAlpha

/-- Mutable loop state of `parse_memory_segment`'s line scan. -/
structure MsState where
  class_type : Option String
  memory_type : Option String
  address : Option Int
  size : Option Int
  attrs : List String
deriving DecidableEq, Repr

/-- One line of `parse_memory_segment`'s scan. -/
def msStep (st : MsState) (ln : String) : Except PyErr MsState := do
  let s := pyStrip ln
  if s.isEmpty then pure st
  else do
    let probe ←
      if st.class_type = none ∧ st.memory_type = none then do
        let tt ← tokenizeLine s
        pure (match tt with
          | [a, b] =>
            if pyIsAlphaStr a ∧ pyIsAlphaStr b then
              some { st with class_type := some a, memory_type := some b }
            else none
          | _ => none)
      else pure none
    match probe with
    | some st' => pure st'
    | none => do
      let parts ← tokenizeLine s
      match parts with
      | p0 :: restp =>
        if (p0 = "INTERN" ∨ p0 = "EXTERN") ∧ st.address = none then
          match restp with
          | a :: b :: restp2 =>
            pure { st with address := pyToInt a, size := pyToInt b,
                           attrs := if restp2.isEmpty then st.attrs else restp2 }
          | _ => pure st
        else pure st
      | [] => pure st

/-- Source `parse_memory_segment`. -/
def parseMemorySegment (block : A2LBlock) : Except PyErr MemorySegment := do
  let name := block.args.headD ""
  let longId :=
    if 1 < block.args.length then some (pyUnquote (joinSpace (block.args.drop 1)))
    else none
  let st ← block.lines.foldlM msStep ⟨none, none, none, none, []⟩
  let segInfo ←
    match block.getFirstChild "IF_DATA" with
    | some ifd =>
      match ifd.getFirstChild "XCPplus" with
      | some xcpp =>
        match xcpp.getFirstChild "SEGMENT" with
        | some segblk => do pure (some (← parseSegmentInfo segblk))
        | none => pure none
      | none => pure none
    | none => pure none
  pure ⟨name, longId, st.class_type, st.memory_type, st.address, st.size, st.attrs,
        segInfo, block.lines⟩

/-- Trailing-keyword scan of `parse_axis_pts` (BYTE_ORDER / FORMAT /
SYMBOL_LINK; each last occurrence wins). -/
def axisOptStep (acc : Option String × Option String × Option (String × Int))
    (ln : String) : Except PyErr (Option String × Option String × Option (String × Int)) := do
  let tt ← tokenizeLine ln
  match tt with
  | [] => pure acc
  | t0 :: restt =>
    let k := pyUpper t0
    if k = "BYTE_ORDER" then
      pure (match restt with | v :: _ => (some v, acc.2.1, acc.2.2) | [] => acc)
    else if k = "FORMAT" then
      pure (match restt with | v :: _ => (acc.1, some v, acc.2.2) | [] => acc)
    else if k = "SYMBOL_LINK" then
      pure (match restt with
        | a :: b :: _ => (acc.1, acc.2.1, some (pyUnquote a, pyOrZero (pyToInt b)))
        | _ => acc)
    else pure acc

/-- Source `parse_axis_pts`. -/
def parseAxisPts (block : A2LBlock) : Except PyErr AxisPts := do
  let lines := block.lines.filter lineNonblank
  let nameRem ← resolveName block.args lines
  let (t1, rem1) ← nextTokens nameRem.2
  let description := if t1.isEmpty then "" else pyUnquote (joinSpace t1)
  let (t2, rem2) ← nextTokens rem1
  let addr := match t2 with | x :: _ => pyToInt x | [] => none
  let (t3, rem3) ← nextTokens rem2
  let inputQty := t3.head?
  let (t4, rem4) ← nextTokens rem3
  let recordLayout := t4.head?
  let (t5, rem5) ← nextTokens rem4
  let deposit := match t5 with | x :: _ => pyToInt x | [] => none
  let (t6, rem6) ← nextTokens rem5
  let compuMethod := t6.head?
  let (t7, rem7) ← nextTokens rem6
  let maxPoints := match t7 with | x :: _ => pyToInt x | [] => none
  let (t8, rem8) ← nextTokens rem7
  let lower := match t8 with | x :: _ => coerceNum x | [] => none
  let (t9, rem9) ← nextTokens rem8
  let upper := match t9 with | x :: _ => coerceNum x | [] => none
  let opt ← rem9.foldlM axisOptStep (none, none, none)
  pure ⟨nameRem.1, description, addr, inputQty, recordLayout, deposit, compuMethod,
        maxPoints, lower, upper, opt.1, opt.2.1, opt.2.2, block.lines⟩

/-- Mutable state of `parse_measurement`'s trailing `while` loop. -/
structure MeasState where
  params : List String
  ecu_address : Option Int
  address : Option Int
  lower : Option PyNum
  upper : Option PyNum
  symbol_link : Option (String × Int)
deriving DecidableEq, Repr

/-- The trailing `while i < len(lines)` loop of `parse_measurement`: one
line consumed per iteration. -/
def measLoop (st : MeasState) : List String → Except PyErr MeasState
  | [] => .ok st
  | l :: rest =>
    match tokenizeLine l with
    | .error e => .error e
    | .ok t =>
      match t with
      | [] => measLoop st rest
      | t0 :: _ =>
        let key := pyUpper t0
        if key = "ECU_ADDRESS" ∨ key = "ADDRESS" then
          match t with
          | _ :: v :: _ =>
            let val := pyToInt v
            if key = "ECU_ADDRESS" then measLoop { st with ecu_address := val } rest
            else measLoop { st with address := val } rest
          | _ => measLoop st rest
        else if key = "SYMBOL_LINK" then
          match t with
          | _ :: a :: b :: _ =>
            measLoop { st with symbol_link := some (pyUnquote a, pyOrZero (pyToInt b)) } rest
          | _ => measLoop st rest
        else
          match t with
          | [x] =>
            if (pyToInt x).isSome ∨ (pyToFloat x).isSome then
              measLoop { st with params := st.params ++ [x] } rest
            else measLoop { st with params := st.params ++ t } rest
          | [x, y] =>
            if ((pyToFloat x).isSome ∨ (pyToInt x).isSome) ∧
               ((pyToFloat y).isSome ∨ (pyToInt y).isSome) then
              measLoop { st with lower := coerceNum x, upper := coerceNum y } rest
            else measLoop { st with params := st.params ++ t } rest
          | _ => measLoop { st with params := st.params ++ t } rest

/-- Source `parse_measurement`. -/
def parseMeasurement (block : A2LBlock) : Except PyErr Measurement := do
  let lines := block.lines.filter lineNonblank
  let nameRem ← resolveName block.args lines
  let rem0 := nameRem.2
  let descRem ←
    if rem0.isEmpty then pure ("", rem0)
    else do
      let (t, r) ← nextTokens rem0
      pure (pyUnquote (joinSpace t), r)
  let rem1 := descRem.2
  let dtRem ←
    if rem1.isEmpty then pure ("", rem1)
    else do
      let (t, r) ← nextTokens rem1
      let h ← pyHead0 t
      pure (h, r)
  let rem2 := dtRem.2
  let cmRem ←
    if rem2.isEmpty then pure ("", rem2)
    else do
      let (t, r) ← nextTokens rem2
      let h ← pyHead0 t
      pure (h, r)
  let st ← measLoop ⟨[], none, none, none, none, none⟩ cmRem.2
  pure ⟨nameRem.1, descRem.1, dtRem.1, cmRem.1, st.params, st.ecu_address, st.address,
        st.lower, st.upper, st.symbol_link, block.lines⟩

/-- Trailing SYMBOL_LINK scan of `parse_characteristic`. -/
def charSymStep (acc : Option (String × Int)) (ln : String) :
    Except PyErr (Option (String × Int)) := do
  let tt ← tokenizeLine ln
  match tt with
  | [] => pure acc
  | t0 :: restt =>
    if pyUpper t0 = "SYMBOL_LINK" then
      pure (match restt with
        | a :: b :: _ => some (pyUnquote a, pyOrZero (pyToInt b))
        | _ => acc)
    else pure acc

/-- Source `parse_characteristic`. -/
def parseCharacteristic (block : A2LBlock) : Except PyErr Characteristic := do
  let lines := block.lines.filter lineNonblank
  let nameRem ← resolveName block.args lines
  let rem0 := nameRem.2
  let descRem ←
    if rem0.isEmpty then pure ("", rem0)
    else do
      let (t, r) ← nextTokens rem0
      pure (pyUnquote (joinSpace t), r)
  let rem1 := descRem.2
  let ctRem ←
    if rem1.isEmpty then pure ("", rem1)
    else do
      let (t, r) ← nextTokens rem1
      let h ← pyHead0 t
      pure (h, r)
  let (t3, rem3) ← nextTokens ctRem.2
  let addr := match t3 with | x :: _ => pyToInt x | [] => none
  let (t4, rem4) ← nextTokens rem3
  let recordLayout := t4.head?
  let (t5, rem5) ← nextTokens rem4
  let maxDiff := match t5 with | x :: _ => coerceNum x | [] => none
  let (t6, rem6) ← nextTokens rem5
  let compuMethod := t6.head?
  let (t7, rem7) ← nextTokens rem6
  let lower := match t7 with | x :: _ => coerceNum x | [] => none
  let (t8, rem8) ← nextTokens rem7
  let upper := match t8 with | x :: _ => coerceNum x | [] => none
  let sym ← rem8.foldlM charSymStep none
  pure ⟨nameRem.1, descRem.1, ctRem.1, addr, recordLayout, maxDiff, compuMethod,
        lower, upper, sym, block.lines⟩

/-- COEFFS scan of `parse_compu_method` (appends across every COEFFS line). -/
def coeffsStep (acc : List ℚ) (ln : String) : Except PyErr (List ℚ) := do
  let tt ← tokenizeLine ln
  match tt with
  | [] => pure acc
  | t0 :: restt =>
    if pyUpper t0 = "COEFFS" then pure (acc ++ restt.filterMap pyToFloat)
    else pure acc

/-- Source `parse_compu_method`.  Note the source's guards are all
`if lines` (the constant filtered list), so with a nonempty block the
`next_tokens()[0]` for the method type raises `IndexError` once the lines
are exhausted. -/
def parseCompuMethod (block : A2LBlock) : Except PyErr CompuMethod := do
  let name := block.args.headD ""
  let lines := block.lines.filter lineNonblank
  if lines.isEmpty then
    pure ⟨name, "", "", none, none, [], block.lines⟩
  else do
    let (t1, rem1) ← nextTokens lines
    let desc := pyUnquote (joinSpace t1)
    let (t2, rem2) ← nextTokens rem1
    let methodType ← pyHead0 t2
    let (t3, rem3) ← nextTokens rem2
    let fmt := some (pyUnquote (joinSpace t3))
    let (t4, rem4) ← nextTokens rem3
    let unit := some (pyUnquote (joinSpace t4))
    let coeffs ← rem4.foldlM coeffsStep []
    pure ⟨name, desc, methodType, fmt, unit, coeffs, block.lines⟩

/-- The counted entry loop of `parse_compu_vtab`: exactly `count` reads, a
read with no tokens or a non-coercible leading token is skipped
(`continue`), a valid read appends `(value, verb.strip('"'))`. -/
def vtabCountLoop : Nat → List String → List (Int × String) →
    Except PyErr (List (Int × String))
  | 0, _, acc => .ok acc
  | n + 1, rem, acc =>
    match nextTokens rem with
    | .error e => .error e
    | .ok (tt, rem') =>
      match tt with
      | [] => vtabCountLoop n rem' acc
      | t0 :: restt =>
        let verb := if restt.isEmpty then "" else pyUnquote (joinSpace restt)
        match pyToInt t0 with
        | some v => vtabCountLoop n rem' (acc ++ [(v, pyStripQuoteChars verb)])
        | none => vtabCountLoop n rem' acc

/-- The fallback entry loop of `parse_compu_vtab`: read via `next_tokens`
until the lines are exhausted (the `next_tokens` blank-line skipping is
inlined into the recursion); a read whose leading token fails to coerce
appends nothing — the `try/except` never fires, since `to_int` returns
`None` instead of raising — and the loop continues. -/
def vtabFallback (acc : List (Int × String)) : List String →
    Except PyErr (List (Int × String))
  | [] => .ok acc
  | l :: rest =>
    match tokenizeLine l with
    | .error e => .error e
    | .ok [] => vtabFallback acc rest
    | .ok (t0 :: restt) =>
      let verb := pyUnquote (joinSpace restt)
      match pyToInt t0 with
      | some v => vtabFallback (acc ++ [(v, verb)]) rest
      | none => vtabFallback acc rest

/-- Source `parse_compu_vtab`. -/
def parseCompuVTab (block : A2LBlock) : Except PyErr CompuVTab := do
  let name := block.args.headD ""
  let lines := block.lines.filter lineNonblank
  if lines.isEmpty then
    pure ⟨name, "", "", [], block.lines⟩
  else do
    let (t1, rem1) ← nextTokens lines
    let desc := pyUnquote (joinSpace t1)
    let (t2, rem2) ← nextTokens rem1
    let tabType ← pyHead0 t2
    let (t3, rem3) ← nextTokens rem2
    let entries ←
      match t3 with
      | c0 :: _ =>
        match pyToInt c0 with
        | some count => vtabCountLoop count.toNat rem3 []
        | none => vtabFallback [] rem3
      | [] => vtabFallback [] rem3
    pure ⟨name, desc, tabType, entries, block.lines⟩

/-- Source `parse_record_layout` (pure). -/
def parseRecordLayout (block : A2LBlock) : RecordLayout :=
  ⟨block.args.headD "", (block.lines.filter lineNonblank).map pyStrip, block.lines⟩

/-- Source `parse_group`. -/
def parseGroup (block : A2LBlock) : Except PyErr Group := do
  let name := block.args.headD ""
  let lines := block.lines.filter lineNonblank
  let desc ←
    match lines with
    | [] => pure ""
    | l0 :: _ => do
      let t ← tokenizeLine l0
      pure (if t.isEmpty then "" else pyUnquote (joinSpace t))
  let refs ← (block.getChildren "REF_MEASUREMENT").foldlM (fun acc rb =>
    rb.lines.foldlM (fun acc2 ln => do
      let t ← tokenizeLine ln
      pure (acc2 ++ t.filter (fun tok => tok ≠ "/begin" ∧ tok ≠ "/end"))) acc) []
  pure ⟨name, desc, refs, block.lines⟩

/-- Source `parse_function`. -/
def parseFunc (block : A2LBlock) : Except PyErr Func := do
  let name := block.args.headD ""
  let lines := block.lines.filter lineNonblank
  let desc ←
    match lines with
    | [] => pure ""
    | l0 :: _ => do
      let t ← tokenizeLine l0
      pure (if t.isEmpty then "" else pyUnquote (joinSpace t))
  let loc0 ← (block.getChildren "LOC_MEASUREMENT").foldlM (fun acc lb =>
    lb.lines.foldlM (fun acc2 ln => do
      let t ← tokenizeLine ln
      pure (acc2 ++ t)) acc) []
  let loc := loc0.filter (fun x => x ≠ "/begin" ∧ x ≠ "/end")
  pure ⟨name, desc, loc, block.lines⟩

/-- One `IF_DATA` child of the module in `A2LParser.parse_text`: when its
first argument is exactly `XCPplus`, each singleton field found is
(re)assigned, so a later occurrence overwrites an earlier one. -/
def ifDataStep (model : A2LModel) (ifd : A2LBlock) : Except PyErr A2LModel := do
  if ifd.args.head? = some "XCPplus" then do
    let model ←
      match ifd.getFirstChild "PROTOCOL_LAYER" with
      | some pl => do pure { model with protocol_layer := some (← parseProtocolLayer pl) }
      | none => pure model
    let model ←
      match ifd.getFirstChild "DAQ" with
      | some dqb => do
        let dq ← parseDaq dqb
        pure { model with daq := some dq, daq_events := dq.events }
      | none => pure model
    match ifd.getFirstChild "XCP_ON_CAN" with
    | some xb => do pure { model with xcp_on_can := some (← parseXcpOnCan xb) }
    | none => pure model
  else pure model

/-- Source `A2LParser.parse_text`: strip comments, build the block tree,
then walk PROJECT → MODULE and dispatch each recognized child block. -/
def parseText (text : String) : Except PyErr A2LModel := do
  let cleaned := stripBlockComments text
  let root := buildRoot (pySplitlines cleaned)
  let model := A2LModel.init [root]
  match root.getFirstChild "PROJECT" with
  | none => pure model
  | some proj => do
    let model :=
      match proj.args with
      | a :: _ => { model with project_name := some a }
      | [] => model
    let mod? := proj.getFirstChild "MODULE"
    let model :=
      match mod? with
      | some mblock =>
        match mblock.args with
        | a :: _ => { model with module_name := some a }
        | [] => model
      | none => model
    match mod? with
    | none => pure model
    | some mblock => do
      let model ← (mblock.getChildren "IF_DATA").foldlM ifDataStep model
      let model ←
        match mblock.getFirstChild "MOD_PAR" with
        | some modPar => do
          let segs ← (modPar.getChildren "MEMORY_SEGMENT").mapM parseMemorySegment
          pure { model with memory_segments := model.memory_segments ++ segs }
        | none => pure model
      let axs ← (mblock.getChildren "AXIS_PTS").mapM parseAxisPts
      let model := { model with axis_pts := model.axis_pts ++ axs }
      let meas ← (mblock.getChildren "MEASUREMENT").mapM parseMeasurement
      let model := { model with measurements := model.measurements ++ meas }
      let chars ← (mblock.getChildren "CHARACTERISTIC").mapM parseCharacteristic
      let model := { model with characteristics := model.characteristics ++ chars }
      let cms ← (mblock.getChildren "COMPU_METHOD").mapM parseCompuMethod
      let model := { model with compu_methods := model.compu_methods ++ cms }
      let cvs ← (mblock.getChildren "COMPU_VTAB").mapM parseCompuVTab
      let model := { model with compu_vtabs := model.compu_vtabs ++ cvs }
      let rls := (mblock.getChildren "RECORD_LAYOUT").map parseRecordLayout
      let model := { model with record_layouts := model.record_layouts ++ rls }
      let grps ← (mblock.getChildren "GROUP").mapM parseGroup
      let model := { model with groups := model.groups ++ grps }
      let fns ← (mblock.getChildren "FUNCTION").mapM parseFunc
      pure { model with functions := model.functions ++ fns }

/-- Python truthiness of an `int | None` field (`if x:`). -/
def truthyInt (x : Option Int) : Bool :=
  match x with
  | some v => v ≠ 0
  | none => false

/-- Python truthiness of a `str | None` field (`if x:`). -/
def truthyStr (x : Option String) : Bool :=
  match x with
  | some s => ¬ s.isEmpty
  | none => false

/-- Emission gated on integer truthiness (`if x: lines.append(f(x))`). -/
def gateInt (x : Option Int) (f : Int → String) : List String :=
  match x with
  | some v => if v = 0 then [] else [f v]
  | none => []

/-- Emission gated on string truthiness. -/
def gateStr (x : Option String) (f : String → String) : List String :=
  match x with
  | some s => if s.isEmpty then [] else [f s]
  | none => []

/-- Emission gated on `x is not None` for an integer field. -/
def gateSomeInt (x : Option Int) (f : Int → String) : List String :=
  match x with
  | some v => [f v]
  | none => []

/-- Emission gated on `x is not None` for a numeric field. -/
def gateSomeNum (x : Option PyNum) (f : PyNum → String) : List String :=
  match x with
  | some v => [f v]
  | none => []

/-- Python `x or d` for `str | None` (used for the default project and
module names in `to_a2l`). -/
def pyOrStr (x : Option String) (d : String) : String :=
  match x with
  | some s => if s.isEmpty then d else s
  | none => d

/-- The PROTOCOL_LAYER section of `A2LModel.to_a2l`. -/
def renderProtocolLayer (indent : String) (pl : ProtocolLayer) : List String :=
  let i2 := indent ++ indent
  let i3 := i2 ++ indent
  [indent ++ "/begin IF_DATA XCPplus", i2 ++ "/begin PROTOCOL_LAYER"]
  ++ gateInt pl.version (fun v => i3 ++ toString v)
  ++ pl.timing_values.map (fun t => i3 ++ toString t)
  ++ gateInt pl.max_cto (fun v => i3 ++ toString v)
  ++ gateInt pl.max_dto (fun v => i3 ++ toString v)
  ++ gateStr pl.byte_order (fun s => i3 ++ s)
  ++ gateStr pl.address_granularity (fun s => i3 ++ s)
  ++ [i2 ++ "/end PROTOCOL_LAYER", indent ++ "/end IF_DATA"]

/-- One EVENT of the DAQ section of `A2LModel.to_a2l`. -/
def renderEvent (i3 indent : String) (e : DaqEvent) : List String :=
  let i4 := i3 ++ indent
  [i3 ++ "/begin EVENT", i4 ++ "\"" ++ e.name ++ "\""]
  ++ gateStr e.short_name (fun s => i4 ++ "\"" ++ s ++ "\"")
  ++ gateInt e.event_channel_number (fun v => i4 ++ toString v)
  ++ gateStr e.type (fun s => i4 ++ s)
  ++ gateInt e.max_daq_list (fun v => i4 ++ toString v)
  ++ gateInt e.cycle (fun v => i4 ++ toString v)
  ++ gateInt e.time_unit (fun v => i4 ++ toString v)
  ++ gateInt e.priority (fun v => i4 ++ toString v)
  ++ [i3 ++ "/end EVENT"]

/-- The DAQ section of `A2LModel.to_a2l` (events come from the aggregate's
`daq_events` list). -/
def renderDaq (indent : String) (dq : DaqConfig) (events : List DaqEvent) : List String :=
  let i2 := indent ++ indent
  let i3 := i2 ++ indent
  [indent ++ "/begin IF_DATA XCPplus", i2 ++ "/begin DAQ"]
  ++ gateStr dq.mode (fun s => i3 ++ s)
  ++ gateInt dq.max_daq (fun v => i3 ++ toString v)
  ++ gateInt dq.max_event_channel (fun v => i3 ++ toString v)
  ++ gateInt dq.min_daq (fun v => i3 ++ toString v)
  ++ (events.map (renderEvent i3 indent)).flatten
  ++ [i2 ++ "/end DAQ", indent ++ "/end IF_DATA"]

/-- One MEMORY_SEGMENT of `A2LModel.to_a2l`. -/
def renderMemSeg (indent : String) (seg : MemorySegment) : List String :=
  let i2 := indent ++ indent
  let i3 := i2 ++ indent
  [i2 ++ "/begin MEMORY_SEGMENT " ++ seg.name]
  ++ gateStr seg.long_identifier (fun s => i3 ++ "\"" ++ s ++ "\"")
  ++ (if truthyStr seg.class_type ∧ truthyStr seg.memory_type then
        [i3 ++ seg.class_type.getD "" ++ " " ++ seg.memory_type.getD ""]
      else [])
  ++ (match seg.address, seg.size with
      | some a, some sz => [i3 ++ "INTERN " ++ pyHex a ++ " " ++ pyHex sz]
      | _, _ => [])
  ++ [i2 ++ "/end MEMORY_SEGMENT"]

/-- The MOD_PAR section of `A2LModel.to_a2l`. -/
def renderMemSegs (indent : String) (segs : List MemorySegment) : List String :=
  if segs.isEmpty then []
  else
    [indent ++ "/begin MOD_PAR"]
    ++ (segs.map (renderMemSeg indent)).flatten
    ++ [indent ++ "/end MOD_PAR"]

/-- One AXIS_PTS of `A2LModel.to_a2l`. -/
def renderAxis (indent : String) (a : AxisPts) : List String :=
  let i2 := indent ++ indent
  [indent ++ "/begin AXIS_PTS " ++ a.name, i2 ++ "\"" ++ a.description ++ "\""]
  ++ gateSomeInt a.address (fun v => i2 ++ pyHex v)
  ++ gateStr a.input_quantity (fun s => i2 ++ s)
  ++ gateStr a.record_layout (fun s => i2 ++ s)
  ++ gateSomeInt a.deposit (fun v => i2 ++ toString v)
  ++ gateStr a.compu_method (fun s => i2 ++ s)
  ++ gateSomeInt a.max_axis_points (fun v => i2 ++ toString v)
  ++ gateSomeNum a.lower_limit (fun q => i2 ++ pyNumRepr q)
  ++ gateSomeNum a.upper_limit (fun q => i2 ++ pyNumRepr q)
  ++ [indent ++ "/end AXIS_PTS"]

/-- One MEASUREMENT of `A2LModel.to_a2l`. -/
def renderMeas (indent : String) (m : Measurement) : List String :=
  let i2 := indent ++ indent
  [indent ++ "/begin MEASUREMENT " ++ m.name,
   i2 ++ "\"" ++ m.description ++ "\"",
   i2 ++ m.datatype,
   i2 ++ m.compu_method]
  ++ gateSomeInt m.ecu_address (fun v => i2 ++ "ECU_ADDRESS " ++ pyHex v)
  ++ (match m.lower_limit, m.upper_limit with
      | some lo, some hi => [i2 ++ pyNumRepr lo ++ " " ++ pyNumRepr hi]
      | _, _ => [])
  ++ [indent ++ "/end MEASUREMENT"]

/-- One CHARACTERISTIC of `A2LModel.to_a2l`. -/
def renderChar (indent : String) (c : Characteristic) : List String :=
  let i2 := indent ++ indent
  [indent ++ "/begin CHARACTERISTIC " ++ c.name,
   i2 ++ "\"" ++ c.description ++ "\"",
   i2 ++ c.char_type]
  ++ gateSomeInt c.address (fun v => i2 ++ pyHex v)
  ++ gateStr c.record_layout (fun s => i2 ++ s)
  ++ gateSomeNum c.max_diff (fun q => i2 ++ pyNumRepr q)
  ++ gateStr c.compu_method (fun s => i2 ++ s)
  ++ (match c.lower_limit, c.upper_limit with
      | some lo, some hi => [i2 ++ pyNumRepr lo ++ " " ++ pyNumRepr hi]
      | _, _ => [])
  ++ [indent ++ "/end CHARACTERISTIC"]

/-- One COMPU_METHOD of `A2LModel.to_a2l`. -/
def renderCompuMethod (indent : String) (cm : CompuMethod) : List String :=
  let i2 := indent ++ indent
  [indent ++ "/begin COMPU_METHOD " ++ cm.name,
   i2 ++ "\"" ++ cm.description ++ "\"",
   i2 ++ cm.method_type]
  ++ gateStr cm.format_str (fun s => i2 ++ "\"" ++ s ++ "\"")
  ++ gateStr cm.unit (fun s => i2 ++ "\"" ++ s ++ "\"")
  ++ (if cm.coeffs.isEmpty then []
      else [i2 ++ "COEFFS " ++ joinSpace (cm.coeffs.map pyFloatRepr)])
  ++ [indent ++ "/end COMPU_METHOD"]

/-- One COMPU_VTAB of `A2LModel.to_a2l`. -/
def renderVtab (indent : String) (vt : CompuVTab) : List String :=
  let i2 := indent ++ indent
  [indent ++ "/begin COMPU_VTAB " ++ vt.name,
   i2 ++ "\"" ++ vt.description ++ "\"",
   i2 ++ vt.tab_type,
   i2 ++ toString vt.entries.length]
  ++ vt.entries.map (fun e => i2 ++ toString e.1 ++ " \"" ++ e.2 ++ "\"")
  ++ [indent ++ "/end COMPU_VTAB"]

/-- One RECORD_LAYOUT of `A2LModel.to_a2l`. -/
def renderRl (indent : String) (rl : RecordLayout) : List String :=
  let i2 := indent ++ indent
  [indent ++ "/begin RECORD_LAYOUT " ++ rl.name]
  ++ rl.entries.map (fun e => i2 ++ e)
  ++ [indent ++ "/end RECORD_LAYOUT"]

/-- One GROUP of `A2LModel.to_a2l`. -/
def renderGroup (indent : String) (g : Group) : List String :=
  let i2 := indent ++ indent
  let i3 := i2 ++ indent
  [indent ++ "/begin GROUP " ++ g.name, i2 ++ "\"" ++ g.description ++ "\""]
  ++ (if g.ref_measurements.isEmpty then []
      else
        [i2 ++ "/begin REF_MEASUREMENT"]
        ++ g.ref_measurements.map (fun r => i3 ++ r)
        ++ [i2 ++ "/end REF_MEASUREMENT"])
  ++ [indent ++ "/end GROUP"]

/-- One FUNCTION of `A2LModel.to_a2l`. -/
def renderFunction (indent : String) (f : Func) : List String :=
  let i2 := indent ++ indent
  let i3 := i2 ++ indent
  [indent ++ "/begin FUNCTION " ++ f.name, i2 ++ "\"" ++ f.description ++ "\""]
  ++ (if f.loc_measurements.isEmpty then []
      else
        [i2 ++ "/begin LOC_MEASUREMENT"]
        ++ f.loc_measurements.map (fun r => i3 ++ r)
        ++ [i2 ++ "/end LOC_MEASUREMENT"])
  ++ [indent ++ "/end FUNCTION"]

/-- Source `A2LModel.to_a2l`: the fixed emission order, joined with `"\r"`. -/
def toA2l (m : A2LModel) (indent : String) : String :=
  let projectName := pyOrStr m.project_name "Untitled"
  let moduleName := pyOrStr m.module_name projectName
  let i2 := indent ++ indent
  let lines :=
    ["ASAP2_VERSION 1 70", "",
     "/begin PROJECT " ++ projectName ++ "\"\"",
     indent ++ "/begin HEADER \"\"",
     i2 ++ "VERSION \"1\"",
     i2 ++ "PROJECT_NO No",
     indent ++ "/end HEADER",
     indent ++ "/begin MODULE " ++ moduleName ++ "\"\"",
     indent ++ "/begin A2ML",
     indent ++ "/end A2ML"]
    ++ (match m.protocol_layer with
        | some pl => renderProtocolLayer indent pl
        | none => [])
    ++ (match m.daq with
        | some dq => renderDaq indent dq m.daq_events
        | none => [])
    ++ renderMemSegs indent m.memory_segments
    ++ (m.axis_pts.map (renderAxis indent)).flatten
    ++ (m.measurements.map (renderMeas indent)).flatten
    ++ (m.characteristics.map (renderChar indent)).flatten
    ++ (m.compu_methods.map (renderCompuMethod indent)).flatten
    ++ (m.compu_vtabs.map (renderVtab indent)).flatten
    ++ (m.record_layouts.map (renderRl indent)).flatten
    ++ (m.groups.map (renderGroup indent)).flatten
    ++ (m.functions.map (renderFunction indent)).flatten
    ++ [indent ++ "/end MODULE", "/end PROJECT"]
  String.intercalate "\r" lines

/-!
Concrete documents and blocks used by the claim theorems.
-/

/-- The spec's five-line measurement example, exactly as written. -/
def c1ExampleText : String :=
  "/begin MEASUREMENT Testvar1\n\"desc\" UWORD CM_ID\nECU_ADDRESS 0x4000D944\n0 100\n/end MEASUREMENT"

/-- The measurement example wrapped in PROJECT/MODULE containers with the
description, datatype and computation-method fields each on their own line
(the layout the positional extractor actually consumes, as in the
repository's test file). -/
def c1WrappedText : String :=
  "/begin PROJECT P\n/begin MODULE M\n/begin MEASUREMENT Testvar1\n\"desc\"\nUWORD\nCM_ID\nECU_ADDRESS 0x4000D944\n0 100\n/end MEASUREMENT\n/end MODULE\n/end PROJECT"

/-- A document whose COMPU_METHOD block has a single content line: the
description consumes it and the method-type read indexes an empty list. -/
def c2CompuBadText : String :=
  "/begin PROJECT P\n/begin MODULE M\n/begin COMPU_METHOD CM\n\"d\"\n/end COMPU_METHOD\n/end MODULE\n/end PROJECT"

/-- A document with a protocol layer of four leading integers and a
byte-order anchor. -/
def c3ProtocolDoc : String :=
  "/begin PROJECT P\n/begin MODULE M\n/begin IF_DATA XCPplus\n/begin PROTOCOL_LAYER\n1 2 3 4\nBYTE_ORDER_MSB_LAST\n/end PROTOCOL_LAYER\n/end IF_DATA\n/end MODULE\n/end PROJECT"

/-- Two IF_DATA XCPplus blocks each carrying a PROTOCOL_LAYER (versions 1
and 2), plus two measurements, in document order. -/
def c5DupDoc : String :=
  "/begin PROJECT P\n/begin MODULE M\n/begin IF_DATA XCPplus\n/begin PROTOCOL_LAYER\n1\n/end PROTOCOL_LAYER\n/end IF_DATA\n/begin IF_DATA XCPplus\n/begin PROTOCOL_LAYER\n2\n/end PROTOCOL_LAYER\n/end IF_DATA\n/begin MEASUREMENT A\n\"d\"\n/end MEASUREMENT\n/begin MEASUREMENT B\n\"d\"\n/end MEASUREMENT\n/end MODULE\n/end PROJECT"

/-- An EVENT block with a quoted name, a quoted short name, a channel
number, the DAQ tag and exactly four following integers. -/
def evFourIntsBlock : A2LBlock :=
  ⟨"EVENT", [], ["\"EV1\"", "\"E1\"", "1", "DAQ", "2 3 4 5"], []⟩

/-- The same EVENT block with only two integers after the tag. -/
def evTwoIntsBlock : A2LBlock :=
  ⟨"EVENT", [], ["\"EV1\"", "\"E1\"", "1", "DAQ", "2 3"], []⟩

/-- A PROTOCOL_LAYER block with leading integers 1 2 3 4 before the
byte-order anchor. -/
def plAnchorBlock : A2LBlock :=
  ⟨"PROTOCOL_LAYER", [], ["1 2 3 4", "BYTE_ORDER_MSB_LAST"], []⟩

/-- A PROTOCOL_LAYER block with only two integers before the anchor. -/
def plTwoIntsBlock : A2LBlock :=
  ⟨"PROTOCOL_LAYER", [], ["1 2", "BYTE_ORDER_MSB_LAST"], []⟩

/-- A MEASUREMENT block with a name argument and no content lines. -/
def measEmptyBlock : A2LBlock :=
  ⟨"MEASUREMENT", ["M1"], [], []⟩

/-- A MEASUREMENT block whose SYMBOL_LINK index token does not coerce. -/
def measSymbolBlock : A2LBlock :=
  ⟨"MEASUREMENT", ["M1"], ["\"d\"", "UWORD", "CM", "SYMBOL_LINK \"sym\" xx"], []⟩

/-- An AXIS_PTS block whose address token does not coerce. -/
def axisBadAddrBlock : A2LBlock :=
  ⟨"AXIS_PTS", ["A1"], ["\"d\"", "zz"], []⟩

/-- A COMPU_VTAB block in fallback mode (first entry-area token `A` is not
an integer) with a later non-entry line `B` followed by a valid entry. -/
def vtabMixedBlock : A2LBlock :=
  ⟨"COMPU_VTAB", ["VT"], ["\"d\"", "TAB_VERB", "A", "B", "1 \"one\""], []⟩

/-- The semantic fields of a measurement: everything except the raw
provenance lines. -/
def measSem (x : Measurement) : Measurement :=
  { x with raw := [] }

/-- The semantic fields of an acquisition event: everything except the raw
provenance lines. -/
def evSem (e : DaqEvent) : DaqEvent :=
  { e with raw := [] }

/-!
Claim theorems.
-/

/-- C1, counterexample: `parse_text` on the exact five-line example yields
an aggregate whose measurements collection is empty — the dispatcher only
collects MEASUREMENT blocks found under PROJECT → MODULE, and this input
has neither container — so it does not contain exactly one measurement. -/
theorem c1_example_counterexample :
    (parseText c1ExampleText).map (fun m => m.measurements) = .ok [] ∧
    (parseText c1ExampleText).map (fun m => m.measurements.length) ≠ .ok 1 := by
  constructor
  · decide
  · decide

/-- C1, amended: wrapped in PROJECT/MODULE containers and with the
description, datatype and computation-method fields each on their own
line, `parse_text` yields exactly one measurement with name `Testvar1`,
description `desc`, datatype `UWORD`, computation method `CM_ID`, ECU
address 0x4000D944 — which is decimal 1073797444, not the 1073884996 the
claim states — lower limit 0.0 and upper limit 100.0. -/
theorem c1_example_amended :
    (parseText c1WrappedText).map (fun m => m.measurements) =
      .ok [⟨"Testvar1", "desc", "UWORD", "CM_ID", [], some 1073797444, none,
            some (.floatVal 0), some (.floatVal 100), none,
            ["\"desc\"", "UWORD", "CM_ID", "ECU_ADDRESS 0x4000D944", "0 100"]⟩] ∧
    (1073797444 : Int) = ((0x4000D944 : Nat) : Int) := by
  constructor
  · decide
  · decide

/-- C2, counterexample: `parse_text` does not return an aggregate for every
input — on a document whose COMPU_METHOD block has a single content line,
the method-type read `next_tokens()[0]` indexes an empty list and an
`IndexError` propagates out of `parse_text`. -/
theorem c2_totality_counterexample :
    (parseText c2CompuBadText).map (fun m => m.project_name) = .error .indexError := by
  decide

/-- C2, amended: `parse_text` is not exception-free: extraction raises an
index error when a COMPU_METHOD (or COMPU_VTAB) block has content but runs
out of token lines before the method-type read (and shlex tokenization can
raise a `ValueError` on an unbalanced quote); on inputs whose blocks carry
the tokens the extractors index — such as the wrapped measurement example —
it returns an aggregate without raising. -/
theorem c2_totality_amended :
    (parseText c2CompuBadText).map (fun m => m.project_name) = .error .indexError ∧
    (parseText c1WrappedText).map (fun m => m.measurements.length) = .ok 1 ∧
    (tokenizeLine "\"unclosed").map (fun t => t.length) =
      .error (.valueError "No closing quotation") := by
  refine ⟨by decide, by decide, by decide⟩

/-- C3, counterexample: render-then-reparse is not field-preserving for the
protocol layer: from `c3ProtocolDoc` the parse captures `max_cto = 2`, but
the serializer re-emits the timing run and the two size fields, so the
reparse captures `max_cto = 4` (and duplicated timing values). -/
theorem c3_roundtrip_counterexample :
    (parseText c3ProtocolDoc).map
        (fun m => m.protocol_layer.map (fun p => (p.max_cto, p.timing_values))) =
      .ok (some (some 2, [2, 3, 4])) ∧
    ((parseText c3ProtocolDoc).bind (fun m => parseText (toA2l m "\t"))).map
        (fun m => m.protocol_layer.map (fun p => (p.max_cto, p.timing_values))) =
      .ok (some (some 4, [2, 3, 4, 2, 3])) := by
  refine ⟨by decide, by decide⟩

/-- C3, amended: the semantic round trip holds for the measurement record
kind on the wrapped example document: rendering the parsed aggregate and
re-parsing the rendered text preserves every populated measurement field
(name, description, datatype, computation method, params, ECU address,
address, limits, symbol link — everything but the raw provenance lines),
as well as the project and module names; it fails for the protocol-layer
record kind (see the counterexample). -/
theorem c3_roundtrip_amended :
    ((parseText c1WrappedText).bind (fun m => parseText (toA2l m "\t"))).map
        (fun m => (m.measurements.map measSem, m.project_name, m.module_name)) =
      (parseText c1WrappedText).map
        (fun m => (m.measurements.map measSem, m.project_name, m.module_name)) ∧
    (parseText c1WrappedText).map (fun m => m.measurements.map measSem) =
      .ok [⟨"Testvar1", "desc", "UWORD", "CM_ID", [], some 1073797444, none,
            some (.floatVal 0), some (.floatVal 100), none, []⟩] := by
  refine ⟨by decide, by decide⟩

/-- C4, counterexample: on an event block with conventionally quoted name
and short name, a channel number, the DAQ tag and exactly two following
integers, `parse_daq_event` leaves the name empty and the short name absent
(tokenization strips quotes, so the quoted-token filter never matches), and
leaves all four of max-list-size, cycle, time-unit and priority absent —
not just time-unit and priority. -/
theorem c4_event_counterexample :
    (parseDaqEvent evTwoIntsBlock).map evSem =
      .ok ⟨"", none, some 1, some "DAQ", none, none, none, none, []⟩ ∧
    (parseDaqEvent evTwoIntsBlock).map
        (fun e => (e.name, e.max_daq_list, e.cycle)) ≠ .ok ("EV1", some 2, some 3) := by
  refine ⟨by decide, by decide⟩

/-- C4, amended: `parse_daq_event` never raises on these inputs; the name
and short-name fields are taken from tokens that still carry literal
surrounding double quotes after tokenization — which conventionally quoted
input never produces, so the name defaults to the empty string and the
short name to absent; the channel number is the first integer anywhere in
the stream; the four integers after the type tag are assigned together to
max-list-size, cycle, time-unit and priority only when at least four are
present, and with fewer (e.g. two) all four are left absent. -/
theorem c4_event_amended :
    (parseDaqEvent evFourIntsBlock).map evSem =
      .ok ⟨"", none, some 1, some "DAQ", some 2, some 3, some 4, some 5, []⟩ ∧
    (parseDaqEvent evTwoIntsBlock).map evSem =
      .ok ⟨"", none, some 1, some "DAQ", none, none, none, none, []⟩ := by
  refine ⟨by decide, by decide⟩

/-- C5, counterexample: with two IF_DATA XCPplus blocks each carrying a
PROTOCOL_LAYER (versions 1 then 2), the aggregate's protocol-layer
singleton holds the record from the last occurrence (version 2), not the
first. -/
theorem c5_singleton_counterexample :
    (parseText c5DupDoc).map (fun m => m.protocol_layer.map (fun p => p.version)) =
      .ok (some (some 2)) ∧
    (parseText c5DupDoc).map (fun m => m.protocol_layer.map (fun p => p.version)) ≠
      .ok (some (some 1)) := by
  refine ⟨by decide, by decide⟩

/-- C5, amended: the IF_DATA loop reassigns each singleton field on every
XCPplus occurrence, so the last occurrence wins and earlier ones are
silently discarded; collection-kind blocks (e.g. measurements) are appended
once per occurrence in document order. -/
theorem c5_singleton_amended :
    (parseText c5DupDoc).map (fun m => m.protocol_layer.map (fun p => p.version)) =
      .ok (some (some 2)) ∧
    (parseText c5DupDoc).map (fun m => m.measurements.map (fun x => x.name)) =
      .ok ["A", "B"] := by
  refine ⟨by decide, by decide⟩

/-- C7, counterexample: optional fields are not always degraded to absent —
with the field's token missing, the description, datatype and
computation-method of a measurement are set to the empty string (an
empty-string sentinel indistinguishable from a parsed empty value), and a
SYMBOL_LINK whose index token fails to coerce gets index 0 (`to_int(...) or
0`), a sentinel zero. -/
theorem c7_absent_counterexample :
    (parseMeasurement measEmptyBlock).map
        (fun x => (x.description, x.datatype, x.compu_method)) = .ok ("", "", "") ∧
    (parseMeasurement measSymbolBlock).map (fun x => x.symbol_link) =
      .ok (some ("sym", 0)) := by
  refine ⟨by decide, by decide⟩

/-- C7, amended: the numeric optional fields (ECU address, address, limits,
deposit, axis address) are left absent when their token is missing or fails
to coerce, so zero remains distinguishable from missing for them; but the
description, datatype and computation-method fields default to the empty
string when missing, and the symbol-link index defaults to 0 when its token
fails to coerce. -/
theorem c7_absent_amended :
    (parseMeasurement measEmptyBlock).map
        (fun x => (x.ecu_address, x.address, x.symbol_link)) = .ok (none, none, none) ∧
    (parseMeasurement measEmptyBlock).map
        (fun x => (x.lower_limit, x.upper_limit)) = .ok (none, none) ∧
    (parseAxisPts axisBadAddrBlock).map
        (fun x => (x.address, x.deposit, x.max_axis_points)) = .ok (none, none, none) ∧
    (parseAxisPts axisBadAddrBlock).map
        (fun x => (x.lower_limit, x.upper_limit)) = .ok (none, none) ∧
    (parseMeasurement measEmptyBlock).map
        (fun x => (x.description, x.datatype, x.compu_method)) = .ok ("", "", "") ∧
    (parseMeasurement measSymbolBlock).map (fun x => x.symbol_link) =
      .ok (some ("sym", 0)) := by
  refine ⟨by decide, by decide, by decide, by decide, by decide, by decide⟩

/-- The leading-integer run as the spec describes it: integers coerced from
the tokens strictly preceding the first byte-order / address-granularity
anchor (non-integer tokens skipped). -/
def plLeadingInts (flat : List String) : List Int :=
  (flat.takeWhile (fun t => !plIsEnumTok t)).filterMap pyToInt

theorem plBeforeEnum_eq (l : List String) : plBeforeEnum l = plLeadingInts l := by
  induction l with
  | nil => rfl
  | cons t ts ih =>
    by_cases h : plIsEnumTok t
    · simp [plBeforeEnum, plLeadingInts, List.takeWhile_cons, h]
    · simp only [plBeforeEnum, plLeadingInts, List.takeWhile_cons, h] at ih ⊢
      cases hv : pyToInt t <;>
        simp [hv, List.filterMap_cons, ih, plLeadingInts]

theorem plScanStep_sizes (flat : List String) (pl : ProtocolLayer) (p : Nat × String) :
    (plScanStep flat pl p).max_cto = pl.max_cto ∧
    (plScanStep flat pl p).max_dto = pl.max_dto := by
  unfold plScanStep
  dsimp only
  split_ifs <;> try exact ⟨rfl, rfl⟩
  all_goals split <;> exact ⟨rfl, rfl⟩

theorem foldl_plScanStep_sizes (flat : List String) (ps : List (Nat × String))
    (pl : ProtocolLayer) :
    ((ps.foldl (plScanStep flat) pl).max_cto = pl.max_cto ∧
     (ps.foldl (plScanStep flat) pl).max_dto = pl.max_dto) := by
  induction ps generalizing pl with
  | nil => exact ⟨rfl, rfl⟩
  | cons p ps ih =>
    rw [List.foldl_cons]
    have h := plScanStep_sizes flat pl p
    have h2 := ih (plScanStep flat pl p)
    exact ⟨h2.1.trans h.1, h2.2.trans h.2⟩

theorem plOfFlat_sizes (raw flat : List String) :
    (plOfFlat raw flat).max_cto =
      (if 3 ≤ (plBeforeEnum flat).length
       then (plBeforeEnum flat)[(plBeforeEnum flat).length - 3]? else none) ∧
    (plOfFlat raw flat).max_dto =
      (if 3 ≤ (plBeforeEnum flat).length
       then (plBeforeEnum flat)[(plBeforeEnum flat).length - 2]? else none) := by
  unfold plOfFlat
  by_cases h3 : 3 ≤ (plBeforeEnum flat).length
  · simp [h3]
  · simp only [h3, if_false]
    have base :
        (match flat with
          | [] => (ProtocolLayer.init raw, ([] : List String))
          | t :: ts =>
            match pyToInt t with
            | some v => ({ ProtocolLayer.init raw with version := some v }, ts)
            | none => (ProtocolLayer.init raw, t :: ts)).1.max_cto = none ∧
        (match flat with
          | [] => (ProtocolLayer.init raw, ([] : List String))
          | t :: ts =>
            match pyToInt t with
            | some v => ({ ProtocolLayer.init raw with version := some v }, ts)
            | none => (ProtocolLayer.init raw, t :: ts)).1.max_dto = none := by
      cases flat with
      | nil => exact ⟨rfl, rfl⟩
      | cons t ts =>
        cases h : pyToInt t <;> simp [h, ProtocolLayer.init]
    have hf := foldl_plScanStep_sizes flat flat.enum
    constructor
    · exact (hf _).1.trans base.1
    · exact (hf _).2.trans base.2

/-- C6, amended: in `parse_protocol_layer`, the leading run is the list of
integers coerced from all tokens strictly preceding the first
byte-order/address-granularity anchor (the version integer included,
non-integer tokens skipped — the timing-value list itself additionally
stops at the first non-integer and at OPTIONAL_CMD /
COMMUNICATION_MODE_SUPPORTED, and excludes the version).  When that run has
at least three elements, its third-from-last element becomes `max_cto` and
its second-from-last becomes `max_dto` — not the final two — while the same
values also remain in the timing list; with fewer than three, both size
fields are left absent. -/
theorem c6_anchor_amended :
    (∀ raw flat : List String,
      (plOfFlat raw flat).max_cto =
        (if 3 ≤ (plLeadingInts flat).length
         then (plLeadingInts flat)[(plLeadingInts flat).length - 3]? else none) ∧
      (plOfFlat raw flat).max_dto =
        (if 3 ≤ (plLeadingInts flat).length
         then (plLeadingInts flat)[(plLeadingInts flat).length - 2]? else none)) ∧
    (parseProtocolLayer plAnchorBlock).map
        (fun p => (p.max_cto, p.max_dto, p.timing_values)) =
      .ok (some 2, some 3, [2, 3, 4]) ∧
    (parseProtocolLayer plTwoIntsBlock).map (fun p => (p.max_cto, p.max_dto)) =
      .ok (none, none) := by
  refine ⟨fun raw flat => ?_, by decide, by decide⟩
  have h := plOfFlat_sizes raw flat
  rwa [plBeforeEnum_eq] at h

/-- C6, amended, witness: the universal position statement applied to the
concrete token stream `1 2 3 4 BYTE_ORDER_MSB_LAST`: the leading run is
`[1, 2, 3, 4]` and `max_cto` is its third-from-last element, 2. -/
theorem c6_anchor_amended_witness :
    (plOfFlat [] ["1", "2", "3", "4", "BYTE_ORDER_MSB_LAST"]).max_cto = some 2 :=
  ((c6_anchor_amended.1 [] ["1", "2", "3", "4", "BYTE_ORDER_MSB_LAST"]).1).trans (by decide)

/-- C6, counterexample: with leading integers 1 2 3 4 before the anchor,
the code sets `max_cto = 2` and `max_dto = 3` (the third- and
second-from-last of the leading run), not the final two integers 3 and 4;
and those values remain in the timing list as well. -/
theorem c6_anchor_counterexample :
    (parseProtocolLayer plAnchorBlock).map
        (fun p => (p.max_cto, p.max_dto, p.timing_values)) =
      .ok (some 2, some 3, [2, 3, 4]) ∧
    (parseProtocolLayer plAnchorBlock).map (fun p => (p.max_cto, p.max_dto)) ≠
      .ok (some 3, some 4) := by
  refine ⟨by decide, by decide⟩

/-- A line acceptable to the fallback loop's reasoning: it tokenizes
without error to a nonempty token list (every nonblank line does). -/
def vtabLineOk (l : String) : Bool :=
  match tokenizeLine l with
  | .ok (_ :: _) => true
  | _ => false

/-- The entry a single line contributes in the fallback grammar: its
leading token coerced to an integer plus the unquoted join of the rest, or
nothing when the leading token does not coerce. -/
def vtabEntryOf (l : String) : Option (Int × String) :=
  match tokenizeLine l with
  | .ok (t0 :: restt) =>
    match pyToInt t0 with
    | some v => some (v, pyUnquote (joinSpace restt))
    | none => none
  | _ => none

/-- C8, amended: the fallback loop reads entry lines in order and runs to
the end of the content lines: a line whose leading token fails to coerce is
skipped without being consumed as a phantom entry and without terminating
the loop, so every later valid `value "text"` line still contributes an
entry — the resulting entries are exactly the per-line contributions in
order. -/
theorem c8_fallback_amended (acc : List (Int × String)) (rem : List String)
    (h : rem.all vtabLineOk) :
    vtabFallback acc rem = .ok (acc ++ rem.filterMap vtabEntryOf) := by
  induction rem generalizing acc with
  | nil => simp [vtabFallback]
  | cons l rest ih =>
    simp only [List.all_cons, Bool.and_eq_true] at h
    obtain ⟨hl, hrest⟩ := h
    unfold vtabLineOk at hl
    match htok : tokenizeLine l with
    | .error e => rw [htok] at hl; simp at hl
    | .ok [] => rw [htok] at hl; simp at hl
    | .ok (t0 :: restt) =>
      cases hv : pyToInt t0 with
      | some v =>
        have he : vtabEntryOf l = some (v, pyUnquote (joinSpace restt)) := by
          simp [vtabEntryOf, htok, hv]
        simp only [vtabFallback, htok, hv, List.filterMap_cons, he, ih _ hrest]
        simp
      | none =>
        have he : vtabEntryOf l = none := by
          simp [vtabEntryOf, htok, hv]
        simp only [vtabFallback, htok, hv, List.filterMap_cons, he, ih _ hrest]

/-- C8, amended, witness: the loop applied to a non-entry line followed by
a valid entry line yields exactly that entry. -/
theorem c8_fallback_amended_witness :
    vtabFallback [] ["B", "1 \"one\""] = .ok [(1, "one")] :=
  (c8_fallback_amended [] ["B", "1 \"one\""] (by decide)).trans (by decide)

theorem gateInt_zero_eq_none (f : Int → String) :
    gateInt (some 0) f = gateInt none f := by
  simp [gateInt]

theorem toA2l_pl_update (ind : String) (m : A2LModel) (a b : ProtocolLayer)
    (h : renderProtocolLayer ind a = renderProtocolLayer ind b) :
    toA2l { m with protocol_layer := some a } ind =
    toA2l { m with protocol_layer := some b } ind := by
  simp only [toA2l]
  rw [h]

theorem toA2l_daq_update (ind : String) (m : A2LModel) (a b : DaqConfig)
    (h : renderDaq ind a m.daq_events = renderDaq ind b m.daq_events) :
    toA2l { m with daq := some a } ind = toA2l { m with daq := some b } ind := by
  simp only [toA2l]
  rw [h]

theorem toA2l_events_update (ind : String) (m : A2LModel) (e₁ e₂ : List DaqEvent)
    (h : ∀ dq : DaqConfig, renderDaq ind dq e₁ = renderDaq ind dq e₂) :
    toA2l { m with daq_events := e₁ } ind = toA2l { m with daq_events := e₂ } ind := by
  cases hd : m.daq with
  | none => simp only [toA2l, hd]
  | some dq =>
    simp only [toA2l, hd]
    rw [h]

/-- C10: in `to_a2l`, every numeric field whose captured value is 0 is
omitted from the rendered text exactly as if it were absent, because
emission is gated on Python truthiness (`if field:`) rather than on
`field is not None`: this holds for the protocol-layer version, `max_cto`
and `max_dto`, the three DAQ counters, and all five numeric fields of a DAQ
event — so the rendered text (and hence any reparse of it) cannot
distinguish a captured zero from a missing field. -/
theorem c10_truthiness_zero_omission :
    (∀ (ind : String) (m : A2LModel) (pl : ProtocolLayer),
      toA2l { m with protocol_layer := some { pl with version := some 0 } } ind =
      toA2l { m with protocol_layer := some { pl with version := none } } ind) ∧
    (∀ (ind : String) (m : A2LModel) (pl : ProtocolLayer),
      toA2l { m with protocol_layer := some { pl with max_cto := some 0 } } ind =
      toA2l { m with protocol_layer := some { pl with max_cto := none } } ind) ∧
    (∀ (ind : String) (m : A2LModel) (pl : ProtocolLayer),
      toA2l { m with protocol_layer := some { pl with max_dto := some 0 } } ind =
      toA2l { m with protocol_layer := some { pl with max_dto := none } } ind) ∧
    (∀ (ind : String) (m : A2LModel) (dq : DaqConfig),
      toA2l { m with daq := some { dq with max_daq := some 0 } } ind =
      toA2l { m with daq := some { dq with max_daq := none } } ind) ∧
    (∀ (ind : String) (m : A2LModel) (dq : DaqConfig),
      toA2l { m with daq := some { dq with max_event_channel := some 0 } } ind =
      toA2l { m with daq := some { dq with max_event_channel := none } } ind) ∧
    (∀ (ind : String) (m : A2LModel) (dq : DaqConfig),
      toA2l { m with daq := some { dq with min_daq := some 0 } } ind =
      toA2l { m with daq := some { dq with min_daq := none } } ind) ∧
    (∀ (ind : String) (m : A2LModel) (pre post : List DaqEvent) (e : DaqEvent),
      toA2l { m with daq_events := pre ++ { e with event_channel_number := some 0 } :: post } ind =
      toA2l { m with daq_events := pre ++ { e with event_channel_number := none } :: post } ind) ∧
    (∀ (ind : String) (m : A2LModel) (pre post : List DaqEvent) (e : DaqEvent),
      toA2l { m with daq_events := pre ++ { e with max_daq_list := some 0 } :: post } ind =
      toA2l { m with daq_events := pre ++ { e with max_daq_list := none } :: post } ind) ∧
    (∀ (ind : String) (m : A2LModel) (pre post : List DaqEvent) (e : DaqEvent),
      toA2l { m with daq_events := pre ++ { e with cycle := some 0 } :: post } ind =
      toA2l { m with daq_events := pre ++ { e with cycle := none } :: post } ind) ∧
    (∀ (ind : String) (m : A2LModel) (pre post : List DaqEvent) (e : DaqEvent),
      toA2l { m with daq_events := pre ++ { e with time_unit := some 0 } :: post } ind =
      toA2l { m with daq_events := pre ++ { e with time_unit := none } :: post } ind) ∧
    (∀ (ind : String) (m : A2LModel) (pre post : List DaqEvent) (e : DaqEvent),
      toA2l { m with daq_events := pre ++ { e with priority := some 0 } :: post } ind =
      toA2l { m with daq_events := pre ++ { e with priority := none } :: post } ind) := by
  refine ⟨?_, ?_, ?_, ?_, ?_, ?_, ?_, ?_, ?_, ?_, ?_⟩
  · intro ind m pl
    exact toA2l_pl_update ind m _ _ (by simp [renderProtocolLayer, gateInt])
  · intro ind m pl
    exact toA2l_pl_update ind m _ _ (by simp [renderProtocolLayer, gateInt])
  · intro ind m pl
    exact toA2l_pl_update ind m _ _ (by simp [renderProtocolLayer, gateInt])
  · intro ind m dq
    exact toA2l_daq_update ind m _ _ (by simp [renderDaq, gateInt])
  · intro ind m dq
    exact toA2l_daq_update ind m _ _ (by simp [renderDaq, gateInt])
  · intro ind m dq
    exact toA2l_daq_update ind m _ _ (by simp [renderDaq, gateInt])
  · intro ind m pre post e
    exact toA2l_events_update ind m _ _ (fun dq => by
      simp [renderDaq, renderEvent, gateInt])
  · intro ind m pre post e
    exact toA2l_events_update ind m _ _ (fun dq => by
      simp [renderDaq, renderEvent, gateInt])
  · intro ind m pre post e
    exact toA2l_events_update ind m _ _ (fun dq => by
      simp [renderDaq, renderEvent, gateInt])
  · intro ind m pre post e
    exact toA2l_events_update ind m _ _ (fun dq => by
      simp [renderDaq, renderEvent, gateInt])
  · intro ind m pre post e
    exact toA2l_events_update ind m _ _ (fun dq => by
      simp [renderDaq, renderEvent, gateInt])

/-- C10, witness: the version conjunct applied to a concrete empty model
and protocol layer. -/
theorem c10_truthiness_zero_omission_witness :
    toA2l { A2LModel.init [] with
            protocol_layer := some { ProtocolLayer.init [] with version := some 0 } } "\t" =
    toA2l { A2LModel.init [] with
            protocol_layer := some { ProtocolLayer.init [] with version := none } } "\t" :=
  c10_truthiness_zero_omission.1 "\t" (A2LModel.init []) (ProtocolLayer.init [])

/-- C8, counterexample: in the fallback grammar, a line whose leading token
does not coerce (`B`) does not terminate the loop: the following valid
entry line still contributes, so the entries list is `[(1, "one")]`, not
`[]` as the claim's termination rule would require. -/
theorem c8_fallback_counterexample :
    (parseCompuVTab vtabMixedBlock).map (fun v => v.entries) = .ok [(1, "one")] ∧
    (parseCompuVTab vtabMixedBlock).map (fun v => v.entries) ≠ .ok [] := by
  refine ⟨by decide, by decide⟩

/-!
Development for C9: the block builder realizes the intended nesting — every
content line is recorded on exactly the block whose open marker most
closely encloses it, and marker lines are never recorded as content.
-/

/-- How `feed_line` classifies one raw line: a well-formed open marker
(with its parsed arguments), a close marker, a content line (including
malformed `/begin` headers, which degrade to content), or a blank line
(skipped). -/
inductive LineKind where
  | openB (name : String) (args : List String)
  | closeB
  | content (s : String)
deriving DecidableEq, Repr

/-- The decision structure of `feed_line`, factored out of the stack
manipulation: same strip, case-insensitive `/begin`–`/end` tests, regex
match and argument parsing. -/
def classifyLine (line : String) : Option LineKind :=
  let s := pyStrip line
  if s.isEmpty then none
  else if strStartsWith (pyLower s) "/begin" then
    match beginMatch s with
    | none => some (.content (pyRstripNl line))
    | some na => some (.openB na.1 (beginArgs (pyStrip na.2)))
  else if strStartsWith (pyLower s) "/end" then some .closeB
  else some (.content (pyRstripNl line))

/-- The stack action of one classified line. -/
def applyKind (st : List BuildFrame) : Option LineKind → List BuildFrame
  | none => st
  | some (.content s) =>
    match st with
    | top :: rest => { top with lines := top.lines ++ [s] } :: rest
    | [] => []
  | some (.openB n a) => ⟨n, a, [], []⟩ :: st
  | some .closeB =>
    match st with
    | top :: parent :: rest =>
      { parent with children := parent.children ++ [top.toBlock] } :: rest
    | other => other

theorem feedLine_eq_applyKind (st : List BuildFrame) (line : String) :
    feedLine st line = applyKind st (classifyLine line) := by
  unfold feedLine classifyLine
  by_cases h1 : (pyStrip line).isEmpty
  · simp [h1, applyKind]
  · simp only [h1, if_false]
    by_cases h2 : strStartsWith (pyLower (pyStrip line)) "/begin"
    · simp only [h2, if_true]
      cases hb : beginMatch (pyStrip line) with
      | none => cases st <;> simp [applyKind]
      | some na => simp [applyKind]
    · simp only [h2, if_false]
      by_cases h3 : strStartsWith (pyLower (pyStrip line)) "/end"
      · simp only [h3, if_true]
        cases st with
        | nil => simp [applyKind]
        | cons top rest => cases rest <;> simp [applyKind]
      · simp only [h3, if_false]
        cases st <;> simp [applyKind]

/-- A well-formed stretch of document: content at the current level, or a
properly matched open marker, body, close marker. -/
inductive SpecItem where
  | content (s : String)
  | block (name : String) (args : List String) (items : List SpecItem)

/-- The content lines lying at the top level of a stretch of items (lines
inside nested blocks belong to those blocks, not to this level). -/
def itemContents : List SpecItem → List String
  | [] => []
  | .content s :: rest => s :: itemContents rest
  | .block _ _ _ :: rest => itemContents rest

/-- The blocks a stretch of items produces: each nested block carries
exactly the content lines of its own body stretch. -/
def itemChildren : List SpecItem → List A2LBlock
  | [] => []
  | .content _ :: rest => itemChildren rest
  | .block n a its :: rest =>
    ⟨n, a, itemContents its, itemChildren its⟩ :: itemChildren rest

/-- `MatchesItems ls items`: the raw lines `ls` are a well-formed, properly
nested document whose structure is `items` — every line is blank, a content
line, or part of a matched `/begin`/`/end` pair, as decided by the very
classification `feed_line` uses. -/
inductive MatchesItems : List String → List SpecItem → Prop where
  | nil : MatchesItems [] []
  | blank (l : String) (ls : List String) (items : List SpecItem) :
      classifyLine l = none → MatchesItems ls items → MatchesItems (l :: ls) items
  | content (l s : String) (ls : List String) (items : List SpecItem) :
      classifyLine l = some (.content s) → MatchesItems ls items →
      MatchesItems (l :: ls) (.content s :: items)
  | block (o : String) (n : String) (a : List String) (body : List String)
      (bitems : List SpecItem) (c : String) (ls : List String) (items : List SpecItem) :
      classifyLine o = some (.openB n a) →
      MatchesItems body bitems →
      classifyLine c = some .closeB →
      MatchesItems ls items →
      MatchesItems (o :: (body ++ c :: ls)) (.block n a bitems :: items)

theorem feedAll_matches {ls : List String} {items : List SpecItem}
    (h : MatchesItems ls items) :
    ∀ (f : BuildFrame) (st : List BuildFrame),
      ls.foldl feedLine (f :: st) =
      ({ f with lines := f.lines ++ itemContents items,
                children := f.children ++ itemChildren items } : BuildFrame) :: st := by
  induction h with
  | nil =>
    intro f st
    simp [itemContents, itemChildren]
  | blank l ls items hc _ ih =>
    intro f st
    rw [List.foldl_cons, feedLine_eq_applyKind, hc]
    exact ih f st
  | content l s ls items hc _ ih =>
    intro f st
    rw [List.foldl_cons, feedLine_eq_applyKind, hc]
    show List.foldl feedLine ({ f with lines := f.lines ++ [s] } :: st) ls = _
    rw [ih]
    simp [itemContents, itemChildren, List.append_assoc]
  | block o n a body bitems c ls items ho _ hc _ ihb ihm =>
    intro f st
    rw [List.foldl_cons, feedLine_eq_applyKind, ho]
    show List.foldl feedLine (⟨n, a, [], []⟩ :: f :: st) (body ++ c :: ls) = _
    rw [List.foldl_append, ihb ⟨n, a, [], []⟩ (f :: st), List.foldl_cons,
        feedLine_eq_applyKind, hc]
    show List.foldl feedLine
        ({ f with children := f.children ++ [BuildFrame.toBlock _] } :: st) ls = _
    rw [ihm]
    simp [itemContents, itemChildren, BuildFrame.toBlock, List.append_assoc]

/-- C9: for every well-formed, properly nested input (`MatchesItems ls
items`), the builder's tree is exactly the intended nesting: the root's
content lines are precisely the top-level content lines in order, and every
block — recursively — carries precisely the content lines strictly between
its own open marker and its matching close, in order (`itemContents` of its
own body), with descendant blocks' lines confined to those descendants
(`itemChildren`); no open/close marker line is ever recorded as content
anywhere in the tree, since `MatchesItems` classifies every recorded line
as `content`. -/
theorem c9_block_scoping (ls : List String) (items : List SpecItem)
    (h : MatchesItems ls items) :
    buildRoot ls = ⟨"ROOT", [], itemContents items, itemChildren items⟩ := by
  unfold buildRoot
  rw [feedAll_matches h rootFrame []]
  rfl

/-- Concrete lines for the C9 witness: a block with one content line,
followed by a root-level content line. -/
def c9Lines : List String := ["/begin B x", "c1", "/end B", "c2"]

/-- The intended structure of `c9Lines`. -/
def c9Items : List SpecItem := [.block "B" ["x"] [.content "c1"], .content "c2"]

/-- C9, witness: the scoping theorem applied to a concrete nested input. -/
theorem c9_block_scoping_witness :
    buildRoot c9Lines = ⟨"ROOT", [], itemContents c9Items, itemChildren c9Items⟩ :=
  c9_block_scoping c9Lines c9Items
    (MatchesItems.block "/begin B x" "B" ["x"] ["c1"] [SpecItem.content "c1"]
      "/end B" ["c2"] [SpecItem.content "c2"]
      (by decide)
      (MatchesItems.content "c1" "c1" [] [] (by decide) MatchesItems.nil)
      (by decide)
      (MatchesItems.content "c2" "c2" [] [] (by decide) MatchesItems.nil))

end A2L
